import Mathlib

/-!
Shallow embedding of the "Eternal Egg" training-data curation core of the
uroboro repository (`src/egg_system.py`).  Python floats are modelled as
rationals (`ℚ`), Python dicts with insertion order as association lists
(`List (String × _)`), Python sets of words as deduplicated lists, and
`datetime.now()` values as opaque strings threaded in as a `now` parameter.
Strings produced purely for display (example ids, formatted percentages in
warning/reason texts) are modelled by plain concatenations without numeric
formatting; no theorem below depends on their exact contents.
-/

set_option maxRecDepth 8000

namespace EggSys

/-- Split a character list at every separator character, keeping empty
segments (the behaviour of Python's `str.split(sep)` for a single-char
separator). -/
def splitL (p : Char → Bool) : List Char → List (List Char)
  | [] => [[]]
  | c :: rest =>
    match splitL p rest with
    | [] => if p c then [[], []] else [[c]]
    | g :: gs => if p c then [] :: g :: gs else (c :: g) :: gs

/-- Python's `str.lower()` (per-character lowercasing). -/
def pyLower (s : String) : String :=
  String.mk (s.data.map Char.toLower)

/-- Python's `str.split()` (split on whitespace, dropping empty tokens). -/
def pySplit (s : String) : List String :=
  ((splitL Char.isWhitespace s.data).map (fun l => String.mk l)).filter
    (fun t => t ≠ "")

/-- Test whether the second list of characters is an initial segment of the first. -/
def startsWithL : List Char → List Char → Bool
  | _, [] => true
  | [], _ :: _ => false
  | a :: as, b :: bs => (a = b) && startsWithL as bs

/-- Test whether `needle` occurs as a contiguous segment of `hay`. -/
def hasSubseg : List Char → List Char → Bool
  | [], needle => needle.isEmpty
  | h :: t, needle => startsWithL (h :: t) needle || hasSubseg t needle

/-- Python's substring containment `needle in hay`. -/
def strIn (needle hay : String) : Bool :=
  hasSubseg hay.toList needle.toList

/-- Mean of a list of rationals (callers only use it on non-empty lists,
mirroring Python's `sum(l)/len(l)`). -/
def listAvg (l : List ℚ) : ℚ := l.sum / (l.length : ℚ)

/-- First-match lookup in an association list (Python `dict[k]` access, with
`none` for a missing key). -/
def lookupA {α : Type} : List (String × α) → String → Option α
  | [], _ => none
  | p :: t, k => if p.1 = k then some p.2 else lookupA t k

/-- Replace the value stored under key `k` (Python's in-place mutation of a
dict entry). Entries with other keys are untouched. -/
def updateA {α : Type} (l : List (String × α)) (k : String) (v : α) :
    List (String × α) :=
  l.map (fun p => if p.1 = k then (k, v) else p)

/-- Stand-in for the truncated md5 fingerprint used for example ids
(`egg_system.py` line 85).  Ids are display-only ("collision risk is
accepted; ids are for display"), and no theorem below inspects them, so the
digest is modelled by plain concatenation of its preimage. -/
def mkExampleId (input_text output_text now : String) : String :=
  input_text ++ output_text ++ now

/-- EggSpecialization (`egg_system.py` lines 18-39). -/
structure EggSpecialization where
  name : String
  description : String
  target_examples : Nat
  examples_collected : Nat
  quality_scores : List ℚ
deriving DecidableEq

/-- EggSpecialization.add_example (lines 28-31). -/
def EggSpecialization.addExample (s : EggSpecialization) (quality_score : ℚ) :
    EggSpecialization :=
  { s with examples_collected := s.examples_collected + 1,
           quality_scores := s.quality_scores ++ [quality_score] }

/-- EggSpecialization.get_progress (lines 33-35). -/
def EggSpecialization.getProgress (s : EggSpecialization) : ℚ :=
  min ((s.examples_collected : ℚ) / (s.target_examples : ℚ)) 1

/-- EggSpecialization.get_average_quality (lines 37-39). -/
def EggSpecialization.getAverageQuality (s : EggSpecialization) : ℚ :=
  if s.quality_scores = [] then 0 else listAvg s.quality_scores

/-- One training example (the dict built in `feed`, lines 84-93). -/
structure TrainingExample where
  id : String
  timestamp : String
  input : String
  output : String
  quality_score : ℚ
  skill_tags : List String
  user_feedback : Option String
  token_count : Nat
deriving DecidableEq

/-- Egg metadata (lines 69-77). -/
structure Metadata where
  hatched : Bool
  hatch_date : Option String
  model_path : Option String
  generation : Nat
  parent_eggs : List String
  achievements : List String
  last_fed : Option String
deriving DecidableEq

/-- EternalEgg state (lines 42-77). -/
structure EternalEgg where
  name : String
  egg_type : String
  created_date : String
  focus_areas : List String
  total_examples : Nat
  quality_threshold : ℚ
  target_examples : Nat
  specializations : List (String × EggSpecialization)
  training_examples : List TrainingExample
  metadata : Metadata
deriving DecidableEq

/-- The fixed 7-skill specialization registry (lines 57-65). -/
def skillRegistry : List (String × EggSpecialization) :=
  [("academic_writing",
     ⟨"Academic Writing", "Formal, professional documentation", 500, 0, []⟩),
   ("ieee_formatting",
     ⟨"IEEE Formatting", "Academic citations and standards", 500, 0, []⟩),
   ("anti_ai_patterns",
     ⟨"Anti-AI Patterns", "Human-like authenticity", 500, 0, []⟩),
   ("content_transformation",
     ⟨"Content Transformation", "Structured to prose", 500, 0, []⟩),
   ("voice_mimicry",
     ⟨"Voice Mimicry", "Personal writing style", 500, 0, []⟩),
   ("technical_documentation",
     ⟨"Technical Documentation", "Clear technical writing", 500, 0, []⟩),
   ("research_synthesis",
     ⟨"Research Synthesis", "Multi-source analysis", 500, 0, []⟩)]

/-- The 7 registry skill names, in dict insertion order. -/
def skillNames : List String := skillRegistry.map Prod.fst

/-- EternalEgg.__init__ (lines 45-77); `now` models `datetime.now()`. -/
def EternalEgg.new (name : String) (focus_areas : List String)
    (egg_type : String) (now : String) : EternalEgg :=
  { name := name, egg_type := egg_type, created_date := now,
    focus_areas := focus_areas,
    total_examples := 0, quality_threshold := 7, target_examples := 2000,
    specializations := skillRegistry, training_examples := [],
    metadata := { hatched := false, hatch_date := none, model_path := none,
                  generation := 1, parent_eggs := [], achievements := [],
                  last_fed := none } }

/-- EternalEgg.get_average_quality (lines 181-185). -/
def EternalEgg.getAverageQuality (e : EternalEgg) : ℚ :=
  if e.training_examples = [] then 0
  else listAvg (e.training_examples.map (fun ex => ex.quality_score))

/-- Number of specializations with at least one collected example
(the list comprehension on lines 159, 223). -/
def EternalEgg.populatedSpecCount (e : EternalEgg) : Nat :=
  (e.specializations.filter (fun p => 0 < p.2.examples_collected)).length

/-- EternalEgg._is_ready_to_hatch (lines 155-161). -/
def EternalEgg.isReadyToHatch (e : EternalEgg) : Bool :=
  decide (e.target_examples ≤ e.total_examples) &&
  decide (e.quality_threshold ≤ e.getAverageQuality) &&
  decide (3 ≤ e.populatedSpecCount) &&
  !e.metadata.hatched

/-- EternalEgg.get_overall_progress (lines 163-166). -/
def EternalEgg.getOverallProgress (e : EternalEgg) : ℚ :=
  min ((e.total_examples : ℚ) / (e.target_examples : ℚ)) 1

/-- Example-count milestones (lines 128-133). -/
def milestones : List (Nat × String) :=
  [(100, "First Century"), (500, "Data Collector"),
   (1000, "Training Master"), (2000, "Hatch Ready")]

/-- Quality milestones (lines 142-146). -/
def qualityAchievements : List (ℚ × String) :=
  [(7, "Quality Threshold"), (8, "High Quality"), (9, "Exceptional Quality")]

/-- EternalEgg._check_achievements (lines 123-153): appends newly crossed
milestones to `metadata.achievements` and returns them. -/
def checkAchievements (md : Metadata) (total : Nat) (avg : ℚ) :
    Metadata × List String :=
  let step1 := milestones.foldl
    (fun (acc : Metadata × List String) m =>
      if decide (m.1 ≤ total) && !(acc.1.achievements.contains m.2) then
        ({ acc.1 with achievements := acc.1.achievements ++ [m.2] },
         acc.2 ++ [m.2])
      else acc) (md, [])
  qualityAchievements.foldl
    (fun (acc : Metadata × List String) m =>
      if decide (m.1 ≤ avg) && !(acc.1.achievements.contains m.2) then
        ({ acc.1 with achievements := acc.1.achievements ++ [m.2] },
         acc.2 ++ [m.2])
      else acc) step1

/-- Increment the specialization stored under `skill`
(`self.specializations[skill].add_example(quality_score)`, line 104). -/
def addExampleTo (specs : List (String × EggSpecialization)) (skill : String)
    (q : ℚ) : List (String × EggSpecialization) :=
  specs.map (fun p => if p.1 = skill then (p.1, p.2.addExample q) else p)

/-- The dict returned by EternalEgg.feed (lines 113-121). -/
structure FeedResult where
  example_id : String
  total_examples : Nat
  specialization_growth : List String
  new_achievements : List String
  hatching_ready : Bool
  overall_progress : ℚ
  quality_average : ℚ
deriving DecidableEq

/-- EternalEgg.feed (lines 79-121).  `now` models `datetime.now()`; the
growth-report strings keep the `"<skill>: +1 example"` label but omit the
formatted progress percentage (display only). -/
def EternalEgg.feed (e : EternalEgg) (input_text output_text : String)
    (skill_tags : List String) (quality_score : ℚ)
    (user_feedback : Option String) (now : String) :
    EternalEgg × FeedResult :=
  let ex : TrainingExample :=
    { id := mkExampleId input_text output_text now,
      timestamp := now,
      input := input_text, output := output_text,
      quality_score := quality_score, skill_tags := skill_tags,
      user_feedback := user_feedback,
      token_count := (pySplit input_text).length + (pySplit output_text).length }
  let e1 := { e with training_examples := e.training_examples ++ [ex],
                     total_examples := e.total_examples + 1,
                     metadata := { e.metadata with last_fed := some now } }
  let upd := skill_tags.foldl
    (fun (acc : List (String × EggSpecialization) × List String) skill =>
      if acc.1.any (fun p => p.1 = skill) then
        (addExampleTo acc.1 skill quality_score,
         acc.2 ++ [skill ++ ": +1 example"])
      else acc)
    (e1.specializations, [])
  let e2 := { e1 with specializations := upd.1 }
  let ach := checkAchievements e2.metadata e2.total_examples e2.getAverageQuality
  let e3 := { e2 with metadata := ach.1 }
  (e3,
   { example_id := ex.id,
     total_examples := e3.total_examples,
     specialization_growth := upd.2,
     new_achievements := ach.2,
     hatching_ready := e3.isReadyToHatch,
     overall_progress := e3.getOverallProgress,
     quality_average := e3.getAverageQuality })

/-- The `requirements` gap report of a failed hatch (lines 220-224). -/
structure HatchRequirements where
  examples_needed : Int
  quality_needed : ℚ
  diversity_needed : Int
deriving DecidableEq

/-- The dict returned by EternalEgg.hatch (lines 214-244). -/
inductive HatchResult where
  | failure (reason : String) (requirements : HatchRequirements)
  | success (model_name : String) (model_path : String)
      (training_dataset_size : Nat) (specializations_learned : List String)
      (estimated_training_time : String) (hatch_date : String)
deriving DecidableEq

/-- Whether a hatch result is the success payload. -/
def HatchResult.isSuccess : HatchResult → Bool
  | .failure _ _ => false
  | .success _ _ _ _ _ _ => true

/-- The gap report of a hatch result, when present. -/
def HatchResult.requirements : HatchResult → Option HatchRequirements
  | .failure _ r => some r
  | .success _ _ _ _ _ _ => none

/-- The `specializations_learned` list of a successful hatch. -/
def HatchResult.specializationsLearned : HatchResult → Option (List String)
  | .failure _ _ => none
  | .success _ _ _ l _ _ => some l

/-- EternalEgg.hatch (lines 214-244); `now` models `datetime.now()`. -/
def EternalEgg.hatch (e : EternalEgg) (now : String) :
    EternalEgg × HatchResult :=
  if e.isReadyToHatch = false then
    (e, .failure "Egg not ready for hatching"
      { examples_needed := max 0 ((e.target_examples : Int) - (e.total_examples : Int)),
        quality_needed := max 0 (e.quality_threshold - e.getAverageQuality),
        diversity_needed := max 0 ((3 : Int) - (e.populatedSpecCount : Int)) })
  else
    let model_name := e.name ++ "-v" ++ toString e.metadata.generation
    let model_path := "models/" ++ model_name ++ ".gguf"
    let e' := { e with metadata :=
      { e.metadata with hatched := true, hatch_date := some now,
                        model_path := some model_path } }
    (e', .success model_name model_path e.total_examples
          (e.specializations.map Prod.fst) "2-6 hours" now)

/-- The health report dict of check_data_health (lines 248-254). -/
structure HealthReport where
  status : String
  warnings : List String
  quality_trend : String
  diversity_score : ℚ
  freshness_score : ℚ
deriving DecidableEq

/-- Number of examples whose content hash collides with an earlier one
(lines 274-281).  The truncated md5 content hash is modelled by the
concatenated content itself, so collisions are exact-content repetitions. -/
def countRepeats (l : List String) : Nat :=
  (l.foldl
    (fun (acc : List String × Nat) h =>
      if h ∈ acc.1 then (acc.1 ++ [h], acc.2 + 1) else (acc.1 ++ [h], acc.2))
    ([], 0)).2

/-- The warning text of line 309. -/
def overingestionWarning : String :=
  "Overingestion detected - similar contexts repeated"

/-- Significant input words of one example: the deduplicated lowercased
input tokens of length greater than 4 (lines 301-304). -/
def sigWordsOf (ex : TrainingExample) : List String :=
  ((pySplit (pyLower ex.input)).dedup).filter (fun w => 4 < w.length)

/-- The most recent 100 training examples (`training_examples[-100:]`,
line 299). -/
def recent100 (e : EternalEgg) : List TrainingExample :=
  e.training_examples.drop (e.training_examples.length - 100)

/-- The maximum context-word frequency of lines 298-307: over the most
recent 100 examples, the highest number of occurrences (at most one per
example) of any significant input word. -/
def maxWordFreq (e : EternalEgg) : Nat :=
  let sigWords := (recent100 e).flatMap sigWordsOf
  (sigWords.dedup.map (fun w => sigWords.count w)).foldr max 0

/-- Number of the most recent 100 examples whose lowercased input words
include `w`. -/
def recentWordCount (e : EternalEgg) (w : String) : Nat :=
  ((recent100 e).filter (fun ex => w ∈ pySplit (pyLower ex.input))).length

/-- The quality-trend, repetition and diversity checks of
check_data_health (lines 259-295), applied when the example list is
non-empty.  Warning strings keep the fixed label of the source but omit
the interpolated percentages (display only). -/
def preFreshnessReport (e : EternalEgg) : HealthReport :=
  let hr : HealthReport :=
    { status := "healthy", warnings := [], quality_trend := "stable",
      diversity_score := 0, freshness_score := 1 }
  let exs := e.training_examples
  -- quality degradation (lines 259-271)
  let recent := if 10 ≤ exs.length then exs.drop (exs.length - 10) else exs
  let older := if 20 ≤ exs.length then exs.take (exs.length - 10) else []
  let hr : HealthReport :=
    if older ≠ [] then
      let recent_quality := listAvg (recent.map (fun ex => ex.quality_score))
      let older_quality := listAvg (older.map (fun ex => ex.quality_score))
      if recent_quality < older_quality - 1/2 then
        { hr with warnings := hr.warnings ++ ["Quality degradation detected"],
                  quality_trend := "declining" }
      else if older_quality + 1/2 < recent_quality then
        { hr with quality_trend := "improving" }
      else hr
    else hr
  -- content repetition (lines 273-285)
  let repetition_rate : ℚ :=
    (countRepeats (exs.map (fun ex => ex.input ++ ex.output)) : ℚ) /
      (exs.length : ℚ)
  let hr : HealthReport :=
    if 1/10 < repetition_rate then
      { hr with warnings := hr.warnings ++ ["High content repetition"] }
    else hr
  -- skill diversity (lines 287-295)
  let skills_represented := (exs.flatMap (fun ex => ex.skill_tags)).dedup
  let hr : HealthReport :=
    { hr with diversity_score := (skills_represented.length : ℚ) / 7 }
  if hr.diversity_score < 3/10 then
    { hr with warnings :=
        hr.warnings ++ ["Low skill diversity - risk of overfitting"] }
  else hr

/-- EternalEgg.check_data_health (lines 246-316): on an empty example list
the initial healthy report is returned; otherwise the quality, repetition
and diversity checks run (`preFreshnessReport`), then the freshness check
(lines 297-310) and the overall status (lines 312-314). -/
def EternalEgg.checkDataHealth (e : EternalEgg) : HealthReport :=
  if e.training_examples = [] then
    { status := "healthy", warnings := [], quality_trend := "stable",
      diversity_score := 0, freshness_score := 1 }
  else
    let hr := preFreshnessReport e
    let hr : HealthReport :=
      if (e.training_examples.length : ℚ) * (2/10) < (maxWordFreq e : ℚ) then
        { hr with warnings := hr.warnings ++ [overingestionWarning],
                  freshness_score := 1/2 }
      else hr
    if hr.warnings.isEmpty = false then
      { hr with status :=
          if hr.warnings.length ≤ 2 then "warning" else "unhealthy" }
    else hr

/-- EggFarm state (lines 319-326): the name→egg mapping; the farm directory
is kept as an inert label, the per-egg files themselves are modelled by
`saveEgg`/`loadEgg` below. -/
structure EggFarm where
  farm_dir : String
  eggs : List (String × EternalEgg)
deriving DecidableEq

/-- Result of EggFarm.spawn_egg (lines 328-344). -/
inductive SpawnResult where
  | failure (reason : String)
  | success (egg_name : String) (egg_type : String)
      (focus_areas : List String) (target_examples : Nat)
deriving DecidableEq

/-- EggFarm.spawn_egg (lines 328-344).  The immediate `save_egg` disk write
is modelled by `saveEgg` producing the persisted document. -/
def EggFarm.spawnEgg (farm : EggFarm) (name : String)
    (focus_areas : List String) (egg_type : String) (now : String) :
    EggFarm × SpawnResult :=
  if (lookupA farm.eggs name).isSome then
    (farm, .failure ("Egg '" ++ name ++ "' already exists"))
  else
    let egg := EternalEgg.new name focus_areas egg_type now
    ({ farm with eggs := farm.eggs ++ [(name, egg)] },
     .success name egg_type focus_areas egg.target_examples)

/-- Result of EggFarm.feed_egg (lines 346-356). -/
inductive FeedEggResult where
  | failure (reason : String)
  | success (egg_name : String) (result : FeedResult)
deriving DecidableEq

/-- Whether a feed_egg result is the success payload. -/
def FeedEggResult.isSuccess : FeedEggResult → Bool
  | .failure _ => false
  | .success _ _ => true

/-- EggFarm.feed_egg (lines 346-356): fails only when the name is unknown;
otherwise delegates to `EternalEgg.feed` and stores the mutated egg. -/
def EggFarm.feedEgg (farm : EggFarm) (egg_name input_text output_text : String)
    (skill_tags : List String) (quality_score : ℚ)
    (user_feedback : Option String) (now : String) :
    EggFarm × FeedEggResult :=
  match lookupA farm.eggs egg_name with
  | none => (farm, .failure ("Egg '" ++ egg_name ++ "' not found"))
  | some egg =>
    let fed := egg.feed input_text output_text skill_tags quality_score
      user_feedback now
    ({ farm with eggs := updateA farm.eggs egg_name fed.1 },
     .success egg_name fed.2)

/-- EggFarm.hatch_egg (lines 384-393). -/
def EggFarm.hatchEgg (farm : EggFarm) (egg_name now : String) :
    EggFarm × HatchResult :=
  match lookupA farm.eggs egg_name with
  | none => (farm, .failure ("Egg '" ++ egg_name ++ "' not found")
      { examples_needed := 0, quality_needed := 0, diversity_needed := 0 })
  | some egg =>
    let r := egg.hatch now
    if r.2.isSuccess then
      ({ farm with eggs := updateA farm.eggs egg_name r.1 }, r.2)
    else (farm, r.2)

/-- One specialization block of the persisted egg JSON (lines 412-419). -/
structure SpecDoc where
  examples_collected : Nat
  quality_scores : List ℚ
  target_examples : Nat
deriving DecidableEq

/-- The persisted per-egg JSON document (lines 403-422): one top-level key
per field; key order inside the JSON object carries no meaning. -/
structure EggDoc where
  name : String
  egg_type : String
  created_date : String
  focus_areas : List String
  total_examples : Nat
  quality_threshold : ℚ
  target_examples : Nat
  specializations : List (String × SpecDoc)
  training_examples : List TrainingExample
  metadata : Metadata
deriving DecidableEq

/-- EggFarm.save_egg (lines 395-422): serialize an egg to its JSON document. -/
def saveEgg (e : EternalEgg) : EggDoc :=
  { name := e.name, egg_type := e.egg_type, created_date := e.created_date,
    focus_areas := e.focus_areas, total_examples := e.total_examples,
    quality_threshold := e.quality_threshold,
    target_examples := e.target_examples,
    specializations := e.specializations.map
      (fun p => (p.1, { examples_collected := p.2.examples_collected,
                        quality_scores := p.2.quality_scores,
                        target_examples := p.2.target_examples })),
    training_examples := e.training_examples,
    metadata := e.metadata }

/-- In-place update of one reconstructed specialization from its persisted
block (lines 441-444): only applied when the name already exists in the
egg's registry, and only `examples_collected` and `quality_scores` are
restored (the persisted `target_examples` of the block is ignored). -/
def applySpecDoc (specs : List (String × EggSpecialization))
    (entry : String × SpecDoc) : List (String × EggSpecialization) :=
  specs.map (fun p =>
    if p.1 = entry.1 then
      (p.1, { p.2 with examples_collected := entry.2.examples_collected,
                       quality_scores := entry.2.quality_scores })
    else p)

/-- The egg-reconstruction body of EggFarm.load_existing_eggs
(lines 430-444) applied to one parsed document.  `created_date` is kept
verbatim (ISO-8601 strings produced by `isoformat` parse and re-format to
themselves). -/
def loadEgg (d : EggDoc) : EternalEgg :=
  let egg := EternalEgg.new d.name d.focus_areas d.egg_type d.created_date
  let egg := { egg with
    total_examples := d.total_examples,
    quality_threshold := d.quality_threshold,
    target_examples := d.target_examples,
    training_examples := d.training_examples,
    metadata := d.metadata }
  { egg with specializations := d.specializations.foldl applySpecDoc egg.specializations }

/-- Equality of persisted documents up to JSON object key order: all scalar
fields agree and every specialization key is bound to the same block. -/
def docEquiv (a b : EggDoc) : Prop :=
  a.name = b.name ∧ a.egg_type = b.egg_type ∧
  a.created_date = b.created_date ∧ a.focus_areas = b.focus_areas ∧
  a.total_examples = b.total_examples ∧
  a.quality_threshold = b.quality_threshold ∧
  a.target_examples = b.target_examples ∧
  (∀ k ∈ a.specializations.map Prod.fst ++ b.specializations.map Prod.fst,
    lookupA a.specializations k = lookupA b.specializations k) ∧
  a.training_examples = b.training_examples ∧ a.metadata = b.metadata

instance (a b : EggDoc) : Decidable (docEquiv a b) := by
  unfold docEquiv
  exact inferInstance

/-- AutoFeeder state (lines 481-532). The fixed `skill_patterns` table is a
module-level constant below. -/
structure AutoFeeder where
  farm : EggFarm
  feeding_enabled : Bool
  quality_threshold : ℚ
  max_feeds_per_hour : Nat
  max_similar_content_ratio : ℚ
  quality_degradation_threshold : ℚ
  recent_content_cache : List String
  cache_size : Nat
  quality_history : List ℚ
  quality_window : Nat
deriving DecidableEq

/-- AutoFeeder.__init__ defaults (lines 484-500). -/
def AutoFeeder.new (farm : EggFarm) : AutoFeeder :=
  { farm := farm, feeding_enabled := true, quality_threshold := 6,
    max_feeds_per_hour := 10, max_similar_content_ratio := 3/20,
    quality_degradation_threshold := 3/10,
    recent_content_cache := [], cache_size := 100,
    quality_history := [], quality_window := 20 }

/-- The skill keyword pattern table (lines 503-532). -/
def skillPatterns : List (String × List String) :=
  [("academic_writing",
    ["academic", "formal", "professional", "research", "methodology",
     "implementation", "results", "analysis", "conclusion", "bibliography"]),
   ("ieee_formatting",
    ["IEEE", "citation", "reference", "TABLE", "FIGURE", "equation",
     "bibliography", "standard", "format"]),
   ("anti_ai_patterns",
    ["authentic", "human", "natural", "conversational", "personal",
     "experience", "actually", "really", "honestly"]),
   ("content_transformation",
    ["bullet", "list", "transform", "structure", "organize",
     "prose", "narrative", "flow", "coherent"]),
   ("voice_mimicry",
    ["voice", "style", "tone", "personality", "characteristic",
     "manner", "approach", "perspective"]),
   ("technical_documentation",
    ["technical", "documentation", "specification", "API", "code",
     "implementation", "system", "architecture", "design"]),
   ("research_synthesis",
    ["synthesis", "analysis", "comparison", "evaluation", "review",
     "literature", "sources", "materials", "findings"])]

/-- Deduplicated lowercased word set of a content string (Python
`set(content.lower().split())`). -/
def wordSetOf (s : String) : List String := (pySplit (pyLower s)).dedup

/-- AutoFeeder._calculate_content_similarity (lines 534-546): Jaccard
word-overlap similarity; the union size is |A| + |B \ A|. -/
def contentSimilarity (new_content existing_content : String) : ℚ :=
  let new_words := wordSetOf new_content
  let existing_words := wordSetOf existing_content
  if new_words.isEmpty || existing_words.isEmpty then 0
  else
    ((new_words.filter (fun w => w ∈ existing_words)).length : ℚ) /
      ((new_words.length
        + (existing_words.filter (fun w => w ∉ new_words)).length : Nat) : ℚ)

/-- The freshness report dict (lines 552-557). -/
structure FreshnessReport where
  is_fresh : Bool
  max_similarity : ℚ
  similar_count : Nat
  reason : String
deriving DecidableEq

/-- One iteration of the cache loop of _check_content_freshness
(lines 560-567): track the running maximum similarity and count cached
items with similarity above 0.7. -/
def freshnessStep (combined_content : String) (r : FreshnessReport)
    (cached_content : String) : FreshnessReport :=
  let similarity := contentSimilarity combined_content cached_content
  let r : FreshnessReport :=
    if r.max_similarity < similarity then
      { r with max_similarity := similarity }
    else r
  if 7/10 < similarity then
    { r with similar_count := r.similar_count + 1 }
  else r

/-- AutoFeeder._check_content_freshness (lines 548-579).  Reason strings
keep the fixed label of the source without the interpolated numbers
(display only). -/
def AutoFeeder.checkContentFreshness (af : AutoFeeder)
    (input_text output_text : String) : FreshnessReport :=
  let combined_content := input_text ++ " " ++ output_text
  let r0 : FreshnessReport :=
    { is_fresh := true, max_similarity := 0, similar_count := 0, reason := "" }
  let r := af.recent_content_cache.foldl (freshnessStep combined_content) r0
  if 3 < r.similar_count then
    { r with is_fresh := false, reason := "Too many similar items" }
  else if 8/10 < r.max_similarity then
    { r with is_fresh := false, reason := "Content too similar" }
  else r

/-- AutoFeeder._update_content_cache (lines 581-590): FIFO cache append. -/
def AutoFeeder.updateContentCache (af : AutoFeeder)
    (input_text output_text : String) : AutoFeeder :=
  let cache := af.recent_content_cache ++ [input_text ++ " " ++ output_text]
  { af with recent_content_cache :=
      if af.cache_size < cache.length then cache.drop 1 else cache }

/-- The quality-trend report dict (lines 594-600). -/
structure TrendReport where
  quality_ok : Bool
  trend : String
  recent_average : ℚ
  degradation : ℚ
  reason : String
deriving DecidableEq

/-- The most recent 5 samples of the trend window (line 614). -/
def recentSlice (h : List ℚ) : List ℚ := h.drop (h.length - 5)

/-- The samples preceding the most recent 5 (line 615): the 10 preceding
ones when at least 15 samples exist, else all preceding ones. -/
def olderSlice (h : List ℚ) : List ℚ :=
  if 15 ≤ h.length then (h.drop (h.length - 15)).take 10
  else h.take (h.length - 5)

/-- The window update of _check_quality_trend (lines 602-607): append the
new score, then pop the oldest sample when the window size is exceeded. -/
def pushWindow (history : List ℚ) (window : Nat) (new_quality : ℚ) :
    List ℚ :=
  let h0 := history ++ [new_quality]
  if window < h0.length then h0.drop 1 else h0

/-- AutoFeeder._check_quality_trend (lines 592-631): push the new score
into the window (FIFO-trimmed to `window`), then compare the recent and
older sample means.  Returns the updated `quality_history` and the report. -/
def checkQualityTrend (history : List ℚ) (window : Nat) (degThreshold : ℚ)
    (new_quality : ℚ) : List ℚ × TrendReport :=
  let h := pushWindow history window new_quality
  let r0 : TrendReport :=
    { quality_ok := true, trend := "stable", recent_average := new_quality,
      degradation := 0, reason := "" }
  if h.length < 10 then (h, r0)
  else
    let recent_samples := recentSlice h
    let older_samples := olderSlice h
    if older_samples.isEmpty then (h, r0)
    else
      let recent_avg := listAvg recent_samples
      let older_avg := listAvg older_samples
      let degradation := older_avg - recent_avg
      if degThreshold < degradation then
        (h, { quality_ok := false, trend := "declining",
              recent_average := recent_avg, degradation := degradation,
              reason := "Quality dropped" })
      else if degradation < -(2/10) then
        (h, { quality_ok := true, trend := "improving",
              recent_average := recent_avg, degradation := degradation,
              reason := "" })
      else
        (h, { quality_ok := true, trend := "stable",
              recent_average := recent_avg, degradation := degradation,
              reason := "" })

/-- The rate-limit report dict (lines 633-640): a placeholder that always
passes. -/
structure RateReport where
  rate_ok : Bool
  feeds_this_hour : Nat
  reason : String
deriving DecidableEq

/-- AutoFeeder._rate_limit_check (lines 633-640). -/
def rateLimitCheck : RateReport :=
  { rate_ok := true, feeds_this_hour := 0, reason := "" }

/-- AutoFeeder.detect_skills (lines 642-653): a skill is detected when at
least `max(1, 20%)` of its patterns occur as substrings of the lowercased
text. -/
def detectSkills (text : String) : List String :=
  let text_lower := pyLower text
  (skillPatterns.filter (fun sp =>
    let pattern_matches := (sp.2.filter (fun p => strIn p text_lower)).length
    max (1 : ℚ) ((sp.2.length : ℚ) * (2/10)) ≤ (pattern_matches : ℚ))).map
    Prod.fst

/-- The academic-register indicator words (lines 675-676). -/
def academicIndicators : List String :=
  ["implementation", "analysis", "methodology", "results",
   "evaluation", "comprehensive", "systematic"]

/-- Output-length bonus of calculate_quality_score (lines 660-665). -/
def lengthBonus (output_text : String) : ℚ :=
  let output_length := (pySplit output_text).length
  if 100 < output_length then 1/2
  else if 50 < output_length then 3/10
  else 0

/-- Sentence-structure bonus of calculate_quality_score (lines 667-672):
based on the mean word count across `'.'`-separated sentences. -/
def sentenceBonus (output_text : String) : ℚ :=
  let sentences := (splitL (fun c => c = '.') output_text.data).map
    (fun l => String.mk l)
  if 3 < sentences.length then
    let avg_sentence_length :=
      ((sentences.map (fun s => ((pySplit s).length : ℚ))).sum) /
        (sentences.length : ℚ)
    if 10 ≤ avg_sentence_length ∧ avg_sentence_length ≤ 25 then 3/10 else 0
  else 0

/-- Academic-indicator bonus of calculate_quality_score (lines 674-678). -/
def academicBonus (output_text : String) : ℚ :=
  let academic_score :=
    (academicIndicators.filter
      (fun ind => strIn (pyLower ind) (pyLower output_text))).length
  min 1 ((academic_score : ℚ) * (2/10))

/-- Context bonus of calculate_quality_score (lines 680-689): the loop over
the `context_bonuses` dict with `break` on first match, written as nested
conditionals over the same three entries in dict order. -/
def contextBonus (command_context : String) : ℚ :=
  if strIn "academic" (pyLower command_context) then 1/2
  else if strIn "sensei" (pyLower command_context) then 2/5
  else if strIn "research" (pyLower command_context) then 3/10
  else 0

/-- AutoFeeder.calculate_quality_score (lines 655-692): base 7.0 plus the
four sequential `base_score +=` bonuses, capped at 9.5. -/
def calculateQualityScore (input_text output_text command_context : String) :
    ℚ :=
  min (19/2)
    (7 + lengthBonus output_text + sentenceBonus output_text
       + academicBonus output_text + contextBonus command_context)

/-- AutoFeeder.should_feed_egg (lines 694-722).  The `list_eggs` /
`get_egg_stats` presence checks both reduce to the same name lookup; the
redundant `egg_stats["success"]` test can therefore not fail. -/
def AutoFeeder.shouldFeedEgg (af : AutoFeeder) (egg_name : String)
    (skills : List String) : Bool :=
  if af.feeding_enabled = false then false
  else
    match lookupA af.farm.eggs egg_name with
    | none => false
    | some egg =>
      if egg.metadata.hatched then false
      else if egg.checkDataHealth.status = "unhealthy" then false
      else decide (0 < (skills.filter (fun s => s ∈ egg.focus_areas)).length)

/-- One entry of the `fed_eggs` list (lines 812-819). -/
structure FedEggInfo where
  name : String
  skills : List String
  quality : ℚ
  total_examples : Nat
  new_achievements : List String
  hatching_ready : Bool
deriving DecidableEq

/-- The `protection_status` dict (lines 731-736). -/
structure ProtectionStatus where
  freshness_check : String
  quality_trend : String
  rate_limit : String
  overall : String
deriving DecidableEq

/-- The dict returned by auto_feed_compatible_eggs (lines 724-832).  When
feeding is disabled Python stores the plain string `"disabled"` under
`protection_status`; that case is modelled by `none`. -/
structure AutoFeedResult where
  enabled : Bool
  fed_eggs : List FedEggInfo
  reason : Option String
  protection_status : Option ProtectionStatus
  detected_skills : Option (List String)
  quality_score : Option ℚ
  total_fed : Option Nat
deriving DecidableEq

/-- Whether a result's protection status reports the quality-trend gate as
blocked. -/
def AutoFeedResult.qualityTrendBlocked (r : AutoFeedResult) : Bool :=
  match r.protection_status with
  | some ps => decide (ps.quality_trend ≠ "pass")
  | none => false

/-- The feeding loop of auto_feed_compatible_eggs (lines 796-819): feed, in
order, every egg name for which `should_feed_egg` holds at that point
(the loop re-reads the farm mutated by earlier iterations), collecting the
per-egg growth signals of successful feeds. -/
def AutoFeeder.feedCompatible : AutoFeeder → List String → List String →
    String → String → ℚ → Option String → String →
    AutoFeeder × List FedEggInfo
  | af, [], _, _, _, _, _, _ => (af, [])
  | af, egg_name :: rest, skills, input_text, output_text, q, fb, now =>
    if af.shouldFeedEgg egg_name skills then
      let fed := af.farm.feedEgg egg_name input_text output_text skills q
        fb now
      let af' := { af with farm := fed.1 }
      match fed.2 with
      | FeedEggResult.failure _ =>
        feedCompatible af' rest skills input_text output_text q fb now
      | FeedEggResult.success _ r =>
        let tail := feedCompatible af' rest skills input_text output_text q
          fb now
        (tail.1,
         { name := egg_name, skills := skills, quality := q,
           total_examples := r.total_examples,
           new_achievements := r.new_achievements,
           hatching_ready := r.hatching_ready } :: tail.2)
    else feedCompatible af rest skills input_text output_text q fb now

/-- AutoFeeder.auto_feed_compatible_eggs (lines 724-832). -/
def AutoFeeder.autoFeedCompatibleEggs (af : AutoFeeder)
    (input_text output_text command_context : String)
    (user_feedback : Option String) (now : String) :
    AutoFeeder × AutoFeedResult :=
  if af.feeding_enabled = false then
    (af, { enabled := false, fed_eggs := [], reason := none,
           protection_status := none, detected_skills := none,
           quality_score := none, total_fed := none })
  else
    let ps : ProtectionStatus :=
      { freshness_check := "pass", quality_trend := "pass",
        rate_limit := "pass", overall := "pass" }
    let freshness := af.checkContentFreshness input_text output_text
    if freshness.is_fresh = false then
      (af, { enabled := true, fed_eggs := [],
             reason := some ("Content protection: " ++ freshness.reason),
             protection_status := some { ps with
               freshness_check := "blocked: " ++ freshness.reason,
               overall := "blocked" },
             detected_skills := none, quality_score := none,
             total_fed := none })
    else
      let rate_check := rateLimitCheck
      if rate_check.rate_ok = false then
        (af, { enabled := true, fed_eggs := [],
               reason := some ("Rate limit: " ++ rate_check.reason),
               protection_status := some { ps with
                 rate_limit := "blocked: " ++ rate_check.reason,
                 overall := "blocked" },
               detected_skills := none, quality_score := none,
               total_fed := none })
      else
        let detected_skills :=
          detectSkills (input_text ++ " " ++ output_text)
        if detected_skills.isEmpty then
          (af, { enabled := true, fed_eggs := [],
                 reason := some "No relevant skills detected",
                 protection_status := some ps, detected_skills := none,
                 quality_score := none, total_fed := none })
        else
          let quality_score :=
            calculateQualityScore input_text output_text command_context
          let qt := checkQualityTrend af.quality_history af.quality_window
            af.quality_degradation_threshold quality_score
          let af1 := { af with quality_history := qt.1 }
          if qt.2.quality_ok = false then
            (af1, { enabled := true, fed_eggs := [],
                    reason := some ("Quality protection: " ++ qt.2.reason),
                    protection_status := some { ps with
                      quality_trend := "blocked: " ++ qt.2.reason,
                      overall := "blocked" },
                    detected_skills := none, quality_score := none,
                    total_fed := none })
          else if quality_score < af1.quality_threshold then
            (af1, { enabled := true, fed_eggs := [],
                    reason := some "Quality too low",
                    protection_status := some ps, detected_skills := none,
                    quality_score := none, total_fed := none })
          else
            let loop := af1.feedCompatible (af1.farm.eggs.map Prod.fst)
              detected_skills input_text output_text quality_score
              user_feedback now
            let af3 :=
              if loop.2.isEmpty = false then
                loop.1.updateContentCache input_text output_text
              else loop.1
            (af3, { enabled := true, fed_eggs := loop.2, reason := none,
                    protection_status := some ps,
                    detected_skills := some detected_skills,
                    quality_score := some quality_score,
                    total_fed := some loop.2.length })

/-- Whether a result's protection status reports the freshness gate as
blocked. -/
def AutoFeedResult.freshnessBlocked (r : AutoFeedResult) : Bool :=
  match r.protection_status with
  | some ps => decide (ps.freshness_check ≠ "pass")
  | none => false

/-- Number of cached content strings whose Jaccard word-overlap similarity
with the new combined content exceeds 0.7 (the `similar_count` of
_check_content_freshness). -/
def simCount (cache : List String) (combined : String) : Nat :=
  (cache.filter (fun c => 7/10 < contentSimilarity combined c)).length

/-- The highest Jaccard word-overlap similarity between the new combined
content and the cached content strings (the `max_similarity` of
_check_content_freshness). -/
def maxSim (cache : List String) (combined : String) : ℚ :=
  cache.foldl (fun m c => max m (contentSimilarity combined c)) 0

/-- The arguments of one `Egg.feed` call. -/
structure FeedCall where
  input : String
  output : String
  skill_tags : List String
  quality_score : ℚ
  user_feedback : Option String
  now : String

/-- Apply a finite sequence of feed calls to an egg. -/
def applyFeeds (e : EternalEgg) (calls : List FeedCall) : EternalEgg :=
  calls.foldl
    (fun e c =>
      (e.feed c.input c.output c.skill_tags c.quality_score c.user_feedback
        c.now).1) e

/-- Sum of `examples_collected` over all specializations of an egg. -/
def specSum (specs : List (String × EggSpecialization)) : Nat :=
  (specs.map (fun p => p.2.examples_collected)).sum

/-- Number of `(example, tag)` pairs of a feed sequence whose tag is one of
the 7 registry skills. -/
def matchingTagCount (calls : List FeedCall) : Nat :=
  (calls.map
    (fun c => (c.skill_tags.filter (fun t => t ∈ skillNames)).length)).sum

/-! Concrete instances used by counterexamples and witnesses. -/

/-- A quality-8 training example. -/
def ex8 : TrainingExample :=
  { id := "x", timestamp := "t", input := "i", output := "o",
    quality_score := 8, skill_tags := ["academic_writing"],
    user_feedback := none, token_count := 2 }

/-- The registry with three populated specializations (one quality-8
example each). -/
def threePopulated : List (String × EggSpecialization) :=
  addExampleTo
    (addExampleTo (addExampleTo skillRegistry "academic_writing" 8)
      "voice_mimicry" 8)
    "research_synthesis" 8

/-- An egg holding 1999 of its 2000 target examples at average quality 8.0
with 3 populated skills. -/
def egg1999 : EternalEgg :=
  { EternalEgg.new "scholar" ["academic_writing"] "academic" "t" with
    total_examples := 1999,
    training_examples := List.replicate 1999 ex8,
    specializations := threePopulated }

/-- A well-formed persisted egg document whose `academic_writing`
specialization block carries `target_examples = 600` instead of the
registry default 500.  It parses and loads without error, but the loader
ignores the per-block `target_examples`, so saving the loaded egg writes
500 back. -/
def docBad : EggDoc :=
  { name := "e", egg_type := "general",
    created_date := "2024-01-01T00:00:00",
    focus_areas := [], total_examples := 0, quality_threshold := 7,
    target_examples := 2000,
    specializations :=
      [("academic_writing", ⟨0, [], 600⟩),
       ("ieee_formatting", ⟨0, [], 500⟩),
       ("anti_ai_patterns", ⟨0, [], 500⟩),
       ("content_transformation", ⟨0, [], 500⟩),
       ("voice_mimicry", ⟨0, [], 500⟩),
       ("technical_documentation", ⟨0, [], 500⟩),
       ("research_synthesis", ⟨0, [], 500⟩)],
    training_examples := [],
    metadata := { hatched := false, hatch_date := none, model_path := none,
                  generation := 1, parent_eggs := [], achievements := [],
                  last_fed := none } }

/-- A training example whose input holds only short words. -/
def exS : TrainingExample :=
  { id := "s", timestamp := "t", input := "ab cd", output := "short",
    quality_score := 6, skill_tags := [], user_feedback := none,
    token_count := 2 }

/-- A training example whose input is the significant word "database". -/
def exD : TrainingExample :=
  { id := "d", timestamp := "t", input := "database", output := "long",
    quality_score := 6, skill_tags := [], user_feedback := none,
    token_count := 1 }

/-- An egg with 105 examples whose most recent 100 contain the word
"database" in exactly 21 of them. -/
def egg105 : EternalEgg :=
  { EternalEgg.new "h" [] "general" "t" with
    total_examples := 105,
    training_examples := List.replicate 84 exS ++ List.replicate 21 exD }

/-- An egg meeting the three quantitative hatch conditions but already
hatched. -/
def eggHatchedOnly : EternalEgg :=
  { EternalEgg.new "e" ["academic_writing"] "general" "t" with
    total_examples := 2000,
    training_examples := [ex8],
    specializations := threePopulated,
    metadata := { (EternalEgg.new "e" ["academic_writing"] "general" "t").metadata
                  with hatched := true } }

/-- An egg meeting all four hatch-readiness conditions. -/
def eggReady : EternalEgg :=
  { eggHatchedOnly with
    metadata := (EternalEgg.new "e" ["academic_writing"] "general" "t").metadata }

/-! Helper lemmas. -/

lemma lengthBonus_nonneg (o : String) : 0 ≤ lengthBonus o := by
  simp only [lengthBonus]
  split_ifs <;> norm_num

lemma sentenceBonus_nonneg (o : String) : 0 ≤ sentenceBonus o := by
  simp only [sentenceBonus]
  split_ifs <;> norm_num

lemma academicBonus_nonneg (o : String) : 0 ≤ academicBonus o := by
  unfold academicBonus
  refine le_min (by norm_num) (by positivity)

lemma contextBonus_nonneg (c : String) : 0 ≤ contextBonus c := by
  unfold contextBonus
  split_ifs <;> norm_num

lemma calculateQualityScore_ge (i o c : String) :
    7 ≤ calculateQualityScore i o c := by
  unfold calculateQualityScore
  refine le_min (by norm_num) ?_
  have h1 := lengthBonus_nonneg o
  have h2 := sentenceBonus_nonneg o
  have h3 := academicBonus_nonneg o
  have h4 := contextBonus_nonneg c
  linarith

lemma calculateQualityScore_le (i o c : String) :
    calculateQualityScore i o c ≤ 19/2 :=
  min_le_left _ _

lemma content_protection_ne (s : String) :
    "Content protection: " ++ s ≠ "Quality too low" := by
  intro h
  have hl := congrArg String.length h
  rw [String.length_append] at hl
  have h1 : ("Content protection: ").length = 20 := by decide
  have h2 : ("Quality too low").length = 15 := by decide
  omega

lemma quality_protection_ne (s : String) :
    "Quality protection: " ++ s ≠ "Quality too low" := by
  intro h
  have hl := congrArg String.length h
  rw [String.length_append] at hl
  have h1 : ("Quality protection: ").length = 20 := by decide
  have h2 : ("Quality too low").length = 15 := by decide
  omega

/-! Claim theorems. -/

/-- C10: for every input text, output text and context string,
`calculate_quality_score` returns a value in the interval [7.0, 9.5]; as a
consequence, with the Auto-Feeder's default `quality_threshold` of 6.0 the
"quality too low" rejection branch of `auto_feed_compatible_eggs` can never
be taken (its guard `quality_score < threshold` is false, so no result ever
carries the "Quality too low" reason). -/
theorem c10_quality_score_range_low_branch_unreachable :
    (∀ i o c : String,
      7 ≤ calculateQualityScore i o c ∧ calculateQualityScore i o c ≤ 19/2) ∧
    (∀ (af : AutoFeeder) (i o c : String) (fb : Option String) (now : String),
      af.quality_threshold = 6 →
      (af.autoFeedCompatibleEggs i o c fb now).2.reason ≠
        some "Quality too low") := by
  constructor
  · exact fun i o c => ⟨calculateQualityScore_ge i o c,
      calculateQualityScore_le i o c⟩
  · intro af i o c fb now hthr
    simp only [AutoFeeder.autoFeedCompatibleEggs]
    split_ifs with h1 h2 h3 h4 h5 h6 h7
    · simp
    · simp only [ne_eq, Option.some.injEq]
      exact content_protection_ne _
    · simp [rateLimitCheck] at h3
    · simp only [ne_eq, Option.some.injEq]
      decide
    · simp only [ne_eq, Option.some.injEq]
      exact quality_protection_ne _
    · exfalso
      have hge := calculateQualityScore_ge i o c
      rw [hthr] at h6
      linarith
    · simp
    · simp

/-- C10 witness: the unreachability statement instantiated at the default
Auto-Feeder over an empty farm and a concrete interaction. -/
theorem c10_witness :
    (AutoFeeder.new ⟨"output/egg-farm", []⟩).quality_threshold = 6 ∧
    ((AutoFeeder.new ⟨"output/egg-farm", []⟩).autoFeedCompatibleEggs
        "analysis" "results of the analysis" "academic" none "t").2.reason ≠
      some "Quality too low" :=
  ⟨by decide,
   c10_quality_score_range_low_branch_unreachable.2
     (AutoFeeder.new ⟨"output/egg-farm", []⟩)
     "analysis" "results of the analysis" "academic" none "t" (by decide)⟩

lemma hatch_not_ready_eq (e : EternalEgg) (now : String)
    (h : e.isReadyToHatch = false) :
    (e.hatch now).2 = HatchResult.failure "Egg not ready for hatching"
      { examples_needed :=
          max 0 ((e.target_examples : Int) - (e.total_examples : Int)),
        quality_needed := max 0 (e.quality_threshold - e.getAverageQuality),
        diversity_needed := max 0 ((3 : Int) - (e.populatedSpecCount : Int)) }
    := by
  unfold EternalEgg.hatch
  rw [h]
  simp

lemma hatch_ready_eq (e : EternalEgg) (now : String)
    (h : e.isReadyToHatch = true) :
    e.hatch now =
      ({ e with metadata :=
          { e.metadata with
            hatched := true,
            hatch_date := some now,
            model_path := some ("models/" ++
              (e.name ++ "-v" ++ toString e.metadata.generation) ++ ".gguf") } },
       HatchResult.success (e.name ++ "-v" ++ toString e.metadata.generation)
         ("models/" ++ (e.name ++ "-v" ++ toString e.metadata.generation)
           ++ ".gguf")
         e.total_examples (e.specializations.map Prod.fst) "2-6 hours" now)
    := by
  unfold EternalEgg.hatch
  rw [h]
  simp

lemma egg1999_avg : egg1999.getAverageQuality = 8 := by
  have h : egg1999.training_examples = List.replicate 1999 ex8 := rfl
  unfold EternalEgg.getAverageQuality
  rw [h, if_neg (by simp), List.map_replicate]
  show listAvg (List.replicate 1999 (8 : ℚ)) = 8
  unfold listAvg
  rw [List.sum_replicate, List.length_replicate, nsmul_eq_mul]
  norm_num

lemma egg1999_not_ready : egg1999.isReadyToHatch = false := by
  unfold EternalEgg.isReadyToHatch
  have h1 : egg1999.total_examples = 1999 := rfl
  have h2 : egg1999.target_examples = 2000 := rfl
  rw [h1, h2]
  simp

lemma avg_of_single (e : EternalEgg) (h : e.training_examples = [ex8]) :
    e.getAverageQuality = 8 := by
  unfold EternalEgg.getAverageQuality
  rw [h, if_neg (by simp)]
  show listAvg [(8 : ℚ)] = 8
  norm_num [listAvg]

lemma eggHatchedOnly_not_ready : eggHatchedOnly.isReadyToHatch = false := by
  unfold EternalEgg.isReadyToHatch
  rw [show eggHatchedOnly.metadata.hatched = true from rfl]
  simp

lemma isReadyToHatch_iff (e : EternalEgg) :
    e.isReadyToHatch = true ↔
      (e.target_examples ≤ e.total_examples ∧
       e.quality_threshold ≤ e.getAverageQuality ∧
       3 ≤ e.populatedSpecCount ∧ e.metadata.hatched = false) := by
  unfold EternalEgg.isReadyToHatch
  simp [Bool.and_eq_true, decide_eq_true_eq, Bool.not_eq_true', and_assoc]

lemma eggReady_conds :
    eggReady.target_examples ≤ eggReady.total_examples ∧
    eggReady.quality_threshold ≤ eggReady.getAverageQuality ∧
    3 ≤ eggReady.populatedSpecCount ∧ eggReady.metadata.hatched = false := by
  refine ⟨by decide, ?_, by decide, by decide⟩
  rw [avg_of_single eggReady rfl, show eggReady.quality_threshold = 7 from rfl]
  norm_num

lemma eggReady_ready : eggReady.isReadyToHatch = true :=
  (isReadyToHatch_iff eggReady).mpr eggReady_conds

/-- C3: for every egg state that is not ready to hatch, `hatch()` returns a
failure whose gap report is exactly
`examples_needed = max(0, target - total)`,
`quality_needed = max(0, threshold - average)` and
`diversity_needed = max(0, 3 - populated specializations)`; in particular an
egg holding 1999 of its 2000 target examples at average quality 8.0 with 3
populated skills fails with `examples_needed = 1`, `quality_needed = 0` and
`diversity_needed = 0`. -/
theorem c3_hatch_gap_formulas :
    (∀ (e : EternalEgg) (now : String), e.isReadyToHatch = false →
      (e.hatch now).2 = HatchResult.failure "Egg not ready for hatching"
        { examples_needed :=
            max 0 ((e.target_examples : Int) - (e.total_examples : Int)),
          quality_needed := max 0 (e.quality_threshold - e.getAverageQuality),
          diversity_needed :=
            max 0 ((3 : Int) - (e.populatedSpecCount : Int)) }) ∧
    (egg1999.hatch "t2").2 = HatchResult.failure "Egg not ready for hatching"
      { examples_needed := 1, quality_needed := 0, diversity_needed := 0 } := by
  refine ⟨fun e now h => hatch_not_ready_eq e now h, ?_⟩
  rw [hatch_not_ready_eq _ _ egg1999_not_ready, egg1999_avg]
  have h1 : egg1999.total_examples = 1999 := rfl
  have h2 : egg1999.target_examples = 2000 := rfl
  have h3 : egg1999.populatedSpecCount = 3 := by decide
  have h4 : egg1999.quality_threshold = 7 := rfl
  rw [h1, h2, h3, h4]
  simp only [HatchResult.failure.injEq, HatchRequirements.mk.injEq]
  refine ⟨trivial, by norm_num, by norm_num, by norm_num⟩

/-- C3 witness: the gap-formula statement instantiated at a freshly spawned
(empty, hence not ready) egg. -/
theorem c3_witness :
    (EternalEgg.new "w" [] "general" "t").isReadyToHatch = false ∧
    ((EternalEgg.new "w" [] "general" "t").hatch "t2").2 =
      HatchResult.failure "Egg not ready for hatching"
        { examples_needed :=
            max 0 (((EternalEgg.new "w" [] "general" "t").target_examples : Int)
              - ((EternalEgg.new "w" [] "general" "t").total_examples : Int)),
          quality_needed :=
            max 0 ((EternalEgg.new "w" [] "general" "t").quality_threshold
              - (EternalEgg.new "w" [] "general" "t").getAverageQuality),
          diversity_needed :=
            max 0 ((3 : Int) -
              ((EternalEgg.new "w" [] "general" "t").populatedSpecCount : Int)) }
    := ⟨by decide, c3_hatch_gap_formulas.1 (EternalEgg.new "w" [] "general" "t")
          "t2" (by decide)⟩

/-- C2 counterexample: an egg satisfying the three quantitative readiness
conditions but with `hatched = true`.  One of the four conditions (not
hatched) is false, so per the claim `hatch()` should fail *and* report a
non-empty, correctly-signed gap for exactly the failing condition — but the
code's gap report is all-zero (`examples_needed = quality_needed =
diversity_needed = 0`), so no non-empty gap describes the failing
condition. -/
theorem c2_counterexample :
    eggHatchedOnly.target_examples ≤ eggHatchedOnly.total_examples ∧
    eggHatchedOnly.quality_threshold ≤ eggHatchedOnly.getAverageQuality ∧
    3 ≤ eggHatchedOnly.populatedSpecCount ∧
    eggHatchedOnly.metadata.hatched = true ∧
    (eggHatchedOnly.hatch "t2").2 =
      HatchResult.failure "Egg not ready for hatching"
        { examples_needed := 0, quality_needed := 0, diversity_needed := 0 }
    := by
  refine ⟨by decide, ?_, by decide, by decide, ?_⟩
  · rw [avg_of_single eggHatchedOnly rfl,
      show eggHatchedOnly.quality_threshold = 7 from rfl]
    norm_num
  · rw [hatch_not_ready_eq _ _ eggHatchedOnly_not_ready,
      avg_of_single eggHatchedOnly rfl]
    have h1 : eggHatchedOnly.total_examples = 2000 := rfl
    have h2 : eggHatchedOnly.target_examples = 2000 := rfl
    have h3 : eggHatchedOnly.populatedSpecCount = 3 := by decide
    have h4 : eggHatchedOnly.quality_threshold = 7 := rfl
    rw [h1, h2, h3, h4]
    simp only [HatchResult.failure.injEq, HatchRequirements.mk.injEq]
    norm_num

/-- C2 (amended): if all four readiness conditions (enough examples, quality
at or above threshold, at least 3 populated specializations, not hatched)
hold then `hatch()` succeeds; if any is false then `hatch()` fails and, for
the three *quantitative* conditions, the gap report carries a positive gap
exactly for the failing ones — a failure due only to the already-hatched
flag carries an all-zero gap report. -/
theorem c2_hatch_readiness :
    ∀ (e : EternalEgg) (now : String),
      ((e.target_examples ≤ e.total_examples ∧
        e.quality_threshold ≤ e.getAverageQuality ∧
        3 ≤ e.populatedSpecCount ∧ e.metadata.hatched = false) →
        (e.hatch now).2.isSuccess = true) ∧
      (¬(e.target_examples ≤ e.total_examples ∧
         e.quality_threshold ≤ e.getAverageQuality ∧
         3 ≤ e.populatedSpecCount ∧ e.metadata.hatched = false) →
        ∃ reqs, (e.hatch now).2 =
            HatchResult.failure "Egg not ready for hatching" reqs ∧
          (0 < reqs.examples_needed ↔ e.total_examples < e.target_examples) ∧
          (0 < reqs.quality_needed ↔ e.getAverageQuality < e.quality_threshold) ∧
          (0 < reqs.diversity_needed ↔ e.populatedSpecCount < 3)) := by
  intro e now
  constructor
  · intro h
    have hr : e.isReadyToHatch = true := (isReadyToHatch_iff e).mpr h
    rw [hatch_ready_eq e now hr]
    rfl
  · intro h
    have hr : e.isReadyToHatch = false := by
      rcases Bool.eq_false_or_eq_true e.isReadyToHatch with h' | h'
      · exact absurd ((isReadyToHatch_iff e).mp h') h
      · exact h'
    refine ⟨_, hatch_not_ready_eq e now hr, ?_, ?_, ?_⟩
    · rw [lt_max_iff]
      constructor
      · rintro (h' | h')
        · exact absurd h' (lt_irrefl 0)
        · exact_mod_cast sub_pos.mp h'
      · intro h'
        right
        have : (e.total_examples : Int) < (e.target_examples : Int) := by
          exact_mod_cast h'
        omega
    · simp [lt_max_iff, sub_pos]
    · rw [lt_max_iff]
      constructor
      · rintro (h' | h')
        · exact absurd h' (lt_irrefl 0)
        · exact_mod_cast sub_pos.mp h'
      · intro h'
        right
        have : (e.populatedSpecCount : Int) < (3 : Int) := by exact_mod_cast h'
        omega

/-- C2 witness: the amended statement instantiated at a ready egg (success
branch). -/
theorem c2_witness :
    (eggReady.target_examples ≤ eggReady.total_examples ∧
     eggReady.quality_threshold ≤ eggReady.getAverageQuality ∧
     3 ≤ eggReady.populatedSpecCount ∧ eggReady.metadata.hatched = false) ∧
    (eggReady.hatch "t2").2.isSuccess = true :=
  ⟨eggReady_conds, (c2_hatch_readiness eggReady "t2").1 eggReady_conds⟩

/-- C8 counterexample: a ready egg with exactly 3 populated
specializations.  `hatch()` succeeds but the manifest's
`specializations_learned` is the full 7-skill registry key list, not the
list of specializations that actually collected an example. -/
theorem c8_counterexample :
    eggReady.isReadyToHatch = true ∧
    (eggReady.hatch "t2").2.specializationsLearned = some skillNames ∧
    (eggReady.specializations.filter
        (fun p => 0 < p.2.examples_collected)).map Prod.fst =
      ["academic_writing", "voice_mimicry", "research_synthesis"] ∧
    skillNames ≠ ["academic_writing", "voice_mimicry", "research_synthesis"]
    := by
  refine ⟨eggReady_ready, ?_, by decide, by decide⟩
  rw [hatch_ready_eq eggReady "t2" eggReady_ready]
  decide

/-- C8 (amended): when `hatch()` succeeds it marks the egg hatched, stamps
`hatch_date`, assigns the model name `"<egg_name>-v<generation>"` (with path
`"models/<model name>.gguf"`), and the returned manifest's
`specializations_learned` is the full 7-skill registry key list of the egg
(all keys of `specializations`, populated or not). -/
theorem c8_hatch_success_shape :
    ∀ (e : EternalEgg) (now : String), e.isReadyToHatch = true →
      (e.hatch now).1.metadata.hatched = true ∧
      (e.hatch now).1.metadata.hatch_date = some now ∧
      (e.hatch now).2 =
        HatchResult.success (e.name ++ "-v" ++ toString e.metadata.generation)
          ("models/" ++ (e.name ++ "-v" ++ toString e.metadata.generation)
            ++ ".gguf")
          e.total_examples (e.specializations.map Prod.fst) "2-6 hours" now
    := by
  intro e now h
  rw [hatch_ready_eq e now h]
  exact ⟨rfl, rfl, rfl⟩

/-- C8 witness: the amended statement instantiated at a concrete ready
egg. -/
theorem c8_witness :
    eggReady.isReadyToHatch = true ∧
    (eggReady.hatch "t2").2 =
      HatchResult.success ("e" ++ "-v" ++ toString (1 : Nat))
        ("models/" ++ ("e" ++ "-v" ++ toString (1 : Nat)) ++ ".gguf")
        2000 skillNames "2-6 hours" "t2" :=
  ⟨eggReady_ready,
   ((c8_hatch_success_shape eggReady "t2" eggReady_ready).2.2).trans
     (by decide)⟩

lemma lookupA_updateA_ne {α : Type} (l : List (String × α)) (k k' : String)
    (v : α) (h : k' ≠ k) :
    lookupA (updateA l k v) k' = lookupA l k' := by
  induction l with
  | nil => rfl
  | cons p t ih =>
    simp only [updateA, List.map_cons] at *
    by_cases hp : p.1 = k
    · simp only [lookupA, if_pos hp]
      have hk : ¬ (k = k') := fun hh => h hh.symm
      rw [if_neg hk, if_neg (by rw [hp]; exact hk)]
      exact ih
    · simp only [lookupA, if_neg hp]
      by_cases hk' : p.1 = k'
      · rw [if_pos hk', if_pos hk']
      · rw [if_neg hk', if_neg hk']
        exact ih

lemma shouldFeed_of_hatched (af : AutoFeeder) (name : String)
    (skills : List String) (egg : EternalEgg)
    (hl : lookupA af.farm.eggs name = some egg)
    (hh : egg.metadata.hatched = true) :
    af.shouldFeedEgg name skills = false := by
  unfold AutoFeeder.shouldFeedEgg
  by_cases hen : af.feeding_enabled = false
  · rw [if_pos hen]
  · rw [if_neg hen, hl]
    simp [hh]

lemma feedEgg_lookup_ne (farm : EggFarm) (n name i o : String)
    (tags : List String) (q : ℚ) (fb : Option String) (now : String)
    (h : name ≠ n) :
    lookupA ((farm.feedEgg n i o tags q fb now).1).eggs name =
      lookupA farm.eggs name := by
  unfold EggFarm.feedEgg
  cases hl : lookupA farm.eggs n with
  | none => rfl
  | some egg => exact lookupA_updateA_ne _ _ _ _ h

lemma feedCompatible_preserves_hatched (skills : List String) (i o : String)
    (q : ℚ) (fb : Option String) (now : String) :
    ∀ (names : List String) (af : AutoFeeder) (name : String)
      (egg : EternalEgg),
      lookupA af.farm.eggs name = some egg → egg.metadata.hatched = true →
      lookupA ((af.feedCompatible names skills i o q fb now).1).farm.eggs
        name = some egg := by
  intro names
  induction names with
  | nil =>
    intro af name egg hl _
    exact hl
  | cons n rest ih =>
    intro af name egg hl hh
    unfold AutoFeeder.feedCompatible
    by_cases hsf : af.shouldFeedEgg n skills = true
    · rw [if_pos hsf]
      by_cases hn : name = n
      · subst hn
        rw [shouldFeed_of_hatched af name skills egg hl hh] at hsf
        exact absurd hsf (by simp)
      · have hl' : lookupA ((af.farm.feedEgg n i o skills q fb now).1).eggs
            name = some egg := by
          rw [feedEgg_lookup_ne af.farm n name i o skills q fb now hn]
          exact hl
        cases hfe : (af.farm.feedEgg n i o skills q fb now).2 with
        | failure r =>
          simp only [hfe]
          exact ih _ name egg hl' hh
        | success en r =>
          simp only [hfe]
          exact ih _ name egg hl' hh
    · rw [if_neg hsf]
      exact ih af name egg hl hh

/-- C1 counterexample: a farm holding a hatched egg.  Contrary to the
claim, `Farm.feed_egg` does not refuse the feed: it succeeds and the
hatched egg's `total_examples` changes from 2000 to 2001. -/
theorem c1_counterexample :
    eggHatchedOnly.metadata.hatched = true ∧
    eggHatchedOnly.total_examples = 2000 ∧
    (EggFarm.feedEgg ⟨"output/egg-farm", [("e", eggHatchedOnly)]⟩ "e" "i" "o"
        ["academic_writing"] 8 none "t2").2.isSuccess = true ∧
    (lookupA (EggFarm.feedEgg ⟨"output/egg-farm", [("e", eggHatchedOnly)]⟩
        "e" "i" "o" ["academic_writing"] 8 none "t2").1.eggs "e").map
      (fun e => e.total_examples) = some 2001 := by decide

/-- C1 (amended): feed attempts against a hatched egg are refused by the
Auto-Feeder layer — `should_feed_egg` returns false for every hatched egg,
and `auto_feed_compatible_eggs` therefore leaves every hatched egg's farm
entry (in particular its `total_examples`) unchanged.  `Farm.feed_egg`
itself performs no hatched check (see the counterexample), so the
protection holds only for auto-feeding, not for direct Farm-level feeds. -/
theorem c1_hatched_protection :
    (∀ (af : AutoFeeder) (name : String) (skills : List String)
       (egg : EternalEgg),
       lookupA af.farm.eggs name = some egg →
       egg.metadata.hatched = true →
       af.shouldFeedEgg name skills = false) ∧
    (∀ (af : AutoFeeder) (i o c : String) (fb : Option String)
       (now name : String) (egg : EternalEgg),
       lookupA af.farm.eggs name = some egg →
       egg.metadata.hatched = true →
       lookupA ((af.autoFeedCompatibleEggs i o c fb now).1).farm.eggs name =
         some egg) := by
  constructor
  · exact fun af name skills egg hl hh =>
      shouldFeed_of_hatched af name skills egg hl hh
  · intro af i o c fb now name egg hl hh
    simp only [AutoFeeder.autoFeedCompatibleEggs]
    split_ifs with h1 h2 h3 h4 h5 h6 h7
    · exact hl
    · exact hl
    · exact hl
    · exact hl
    · exact hl
    · exact hl
    · show lookupA ((AutoFeeder.feedCompatible _ _ _ _ _ _ _ _).1.farm.eggs)
        name = some egg
      exact feedCompatible_preserves_hatched _ _ _ _ _ _ _ _ name egg hl hh
    · exact feedCompatible_preserves_hatched _ _ _ _ _ _ _ _ name egg hl hh

/-- C1 witness: the amended statement instantiated at a default Auto-Feeder
over a farm holding a concrete hatched egg. -/
theorem c1_witness :
    lookupA (AutoFeeder.new ⟨"output/egg-farm", [("e", eggHatchedOnly)]⟩).farm.eggs
      "e" = some eggHatchedOnly ∧
    eggHatchedOnly.metadata.hatched = true ∧
    lookupA (((AutoFeeder.new ⟨"output/egg-farm", [("e", eggHatchedOnly)]⟩).autoFeedCompatibleEggs
        "i" "o" "" none "t2").1).farm.eggs "e" = some eggHatchedOnly :=
  ⟨by decide, by decide,
   c1_hatched_protection.2
     (AutoFeeder.new ⟨"output/egg-farm", [("e", eggHatchedOnly)]⟩)
     "i" "o" "" none "t2" "e" eggHatchedOnly (by decide) (by decide)⟩

lemma addExampleTo_keys (s : String) (q : ℚ) :
    ∀ specs : List (String × EggSpecialization),
      (addExampleTo specs s q).map Prod.fst = specs.map Prod.fst := by
  intro specs
  induction specs with
  | nil => rfl
  | cons p t ih =>
    simp only [addExampleTo, List.map_cons] at ih ⊢
    by_cases hp : p.1 = s
    · rw [if_pos hp, ih]
    · rw [if_neg hp, ih]

lemma specSum_addExampleTo_mono (s : String) (q : ℚ) :
    ∀ specs : List (String × EggSpecialization),
      specSum specs ≤ specSum (addExampleTo specs s q) := by
  intro specs
  induction specs with
  | nil => exact le_refl _
  | cons p t ih =>
    simp only [addExampleTo, specSum, List.map_cons, List.sum_cons] at ih ⊢
    by_cases hp : p.1 = s
    · rw [if_pos hp]
      dsimp only
      rw [show (p.2.addExample q).examples_collected =
        p.2.examples_collected + 1 from rfl]
      omega
    · rw [if_neg hp]
      omega

lemma specSum_addExampleTo_ge (s : String) (q : ℚ) :
    ∀ specs : List (String × EggSpecialization),
      specs.any (fun p => p.1 = s) = true →
      specSum specs + 1 ≤ specSum (addExampleTo specs s q) := by
  intro specs
  induction specs with
  | nil => intro h; simp at h
  | cons p t ih =>
    intro hmem
    simp only [List.any_cons, Bool.or_eq_true] at hmem
    simp only [addExampleTo, specSum, List.map_cons, List.sum_cons] at ih ⊢
    by_cases hp : p.1 = s
    · rw [if_pos hp]
      dsimp only
      rw [show (p.2.addExample q).examples_collected =
        p.2.examples_collected + 1 from rfl]
      have := specSum_addExampleTo_mono s q t
      simp only [addExampleTo, specSum] at this
      omega
    · rw [if_neg hp]
      rcases hmem with hm | hm
      · exact absurd (of_decide_eq_true hm) hp
      · have := ih hm
        omega

lemma any_key_iff (specs : List (String × EggSpecialization)) (s : String) :
    specs.any (fun p => p.1 = s) = true ↔ s ∈ specs.map Prod.fst := by
  simp only [List.any_eq_true, List.mem_map, decide_eq_true_eq]

lemma addExampleTo_entries (s : String) (q : ℚ)
    (specs : List (String × EggSpecialization))
    (h : ∀ p ∈ specs, p.2.examples_collected = p.2.quality_scores.length) :
    ∀ p ∈ addExampleTo specs s q,
      p.2.examples_collected = p.2.quality_scores.length := by
  intro p hp
  simp only [addExampleTo, List.mem_map] at hp
  obtain ⟨p0, hp0, rfl⟩ := hp
  by_cases h0 : p0.1 = s
  · rw [if_pos h0]
    simp only [EggSpecialization.addExample, List.length_append,
      List.length_cons, List.length_nil]
    rw [h p0 hp0]
  · rw [if_neg h0]
    exact h p0 hp0

lemma tagsFold_props (q : ℚ) :
    ∀ (tags : List String)
      (acc : List (String × EggSpecialization) × List String),
      acc.1.map Prod.fst = skillNames →
      ((tags.foldl
          (fun (acc : List (String × EggSpecialization) × List String) skill =>
            if acc.1.any (fun p => p.1 = skill) then
              (addExampleTo acc.1 skill q,
               acc.2 ++ [skill ++ ": +1 example"])
            else acc) acc).1.map Prod.fst = skillNames) ∧
      (specSum acc.1 + (tags.filter (fun t => t ∈ skillNames)).length ≤
        specSum (tags.foldl
          (fun (acc : List (String × EggSpecialization) × List String) skill =>
            if acc.1.any (fun p => p.1 = skill) then
              (addExampleTo acc.1 skill q,
               acc.2 ++ [skill ++ ": +1 example"])
            else acc) acc).1) ∧
      ((∀ p ∈ acc.1, p.2.examples_collected = p.2.quality_scores.length) →
        ∀ p ∈ (tags.foldl
          (fun (acc : List (String × EggSpecialization) × List String) skill =>
            if acc.1.any (fun p => p.1 = skill) then
              (addExampleTo acc.1 skill q,
               acc.2 ++ [skill ++ ": +1 example"])
            else acc) acc).1,
          p.2.examples_collected = p.2.quality_scores.length) := by
  intro tags
  induction tags with
  | nil =>
    intro acc hkeys
    exact ⟨hkeys, by simp, fun h => h⟩
  | cons tg rest ih =>
    intro acc hkeys
    simp only [List.foldl_cons]
    by_cases hm : acc.1.any (fun p => p.1 = tg) = true
    · rw [if_pos hm]
      have hkeys' : (addExampleTo acc.1 tg q).map Prod.fst = skillNames := by
        rw [addExampleTo_keys]
        exact hkeys
      have hih := ih (addExampleTo acc.1 tg q,
        acc.2 ++ [tg ++ ": +1 example"]) hkeys'
      have htg : tg ∈ skillNames := by
        rw [← hkeys]
        exact (any_key_iff acc.1 tg).mp hm
      refine ⟨hih.1, ?_, fun h => hih.2.2 (addExampleTo_entries tg q acc.1 h)⟩
      have h1 := specSum_addExampleTo_ge tg q acc.1 hm
      have h2 := hih.2.1
      dsimp only at h2
      rw [List.filter_cons, if_pos (by simpa using htg)]
      simp only [List.length_cons]
      omega
    · rw [if_neg hm]
      have htg : tg ∉ skillNames := by
        rw [← hkeys]
        intro hc
        exact hm ((any_key_iff acc.1 tg).mpr hc)
      have hih := ih acc hkeys
      refine ⟨hih.1, ?_, hih.2.2⟩
      rw [List.filter_cons, if_neg (by simpa using htg)]
      exact hih.2.1

lemma feed_props (e : EternalEgg) (c : FeedCall)
    (hkeys : e.specializations.map Prod.fst = skillNames) :
    ((e.feed c.input c.output c.skill_tags c.quality_score c.user_feedback
        c.now).1.total_examples = e.total_examples + 1) ∧
    ((e.feed c.input c.output c.skill_tags c.quality_score c.user_feedback
        c.now).1.training_examples.length = e.training_examples.length + 1) ∧
    ((e.feed c.input c.output c.skill_tags c.quality_score c.user_feedback
        c.now).1.specializations.map Prod.fst = skillNames) ∧
    (specSum e.specializations +
        (c.skill_tags.filter (fun t => t ∈ skillNames)).length ≤
      specSum (e.feed c.input c.output c.skill_tags c.quality_score
        c.user_feedback c.now).1.specializations) ∧
    ((∀ p ∈ e.specializations,
        p.2.examples_collected = p.2.quality_scores.length) →
      ∀ p ∈ (e.feed c.input c.output c.skill_tags c.quality_score
          c.user_feedback c.now).1.specializations,
        p.2.examples_collected = p.2.quality_scores.length) := by
  have h := tagsFold_props c.quality_score c.skill_tags
    (e.specializations, []) hkeys
  unfold EternalEgg.feed
  refine ⟨rfl, by simp, h.1, h.2.1, h.2.2⟩

lemma applyFeeds_props :
    ∀ (calls : List FeedCall) (e : EternalEgg),
      e.specializations.map Prod.fst = skillNames →
      ((applyFeeds e calls).specializations.map Prod.fst = skillNames) ∧
      ((applyFeeds e calls).total_examples + e.training_examples.length =
        e.total_examples + (applyFeeds e calls).training_examples.length) ∧
      (specSum e.specializations + matchingTagCount calls ≤
        specSum (applyFeeds e calls).specializations) ∧
      ((∀ p ∈ e.specializations,
          p.2.examples_collected = p.2.quality_scores.length) →
        ∀ p ∈ (applyFeeds e calls).specializations,
          p.2.examples_collected = p.2.quality_scores.length) := by
  intro calls
  induction calls with
  | nil =>
    intro e hkeys
    exact ⟨hkeys, by simp [applyFeeds], by simp [applyFeeds, matchingTagCount],
      fun h => h⟩
  | cons cl rest ih =>
    intro e hkeys
    have hf := feed_props e cl hkeys
    have happ : applyFeeds e (cl :: rest) =
        applyFeeds (e.feed cl.input cl.output cl.skill_tags cl.quality_score
          cl.user_feedback cl.now).1 rest := rfl
    have hih := ih (e.feed cl.input cl.output cl.skill_tags cl.quality_score
      cl.user_feedback cl.now).1 hf.2.2.1
    rw [happ]
    refine ⟨hih.1, ?_, ?_, fun h => hih.2.2.2 (hf.2.2.2.2 h)⟩
    · have h1 := hih.2.1
      have h2 := hf.1
      have h3 := hf.2.1
      omega
    · have h1 := hih.2.2.1
      have h2 := hf.2.2.2.1
      have h4 : matchingTagCount (cl :: rest) =
          (cl.skill_tags.filter (fun t => t ∈ skillNames)).length +
            matchingTagCount rest := by
        simp [matchingTagCount]
      omega

/-- C9: for every freshly created egg (the state `spawn_egg` stores) and
every finite sequence of feed calls, afterwards `total_examples` equals
`len(training_examples)`, the sum of `examples_collected` over all
specializations is at least the number of `(example, tag)` pairs whose tag
is one of the 7 registry skills, and every specialization keeps
`examples_collected == len(quality_scores)`. -/
theorem c9_feed_invariants :
    ∀ (name : String) (focus : List String) (etype now : String)
      (calls : List FeedCall),
      (applyFeeds (EternalEgg.new name focus etype now) calls).total_examples =
        (applyFeeds (EternalEgg.new name focus etype now)
          calls).training_examples.length ∧
      matchingTagCount calls ≤
        specSum (applyFeeds (EternalEgg.new name focus etype now)
          calls).specializations ∧
      ∀ p ∈ (applyFeeds (EternalEgg.new name focus etype now)
          calls).specializations,
        p.2.examples_collected = p.2.quality_scores.length := by
  intro name focus etype now calls
  have hkeys : (EternalEgg.new name focus etype now).specializations.map
      Prod.fst = skillNames := rfl
  have h := applyFeeds_props calls (EternalEgg.new name focus etype now) hkeys
  have hbase : specSum (EternalEgg.new name focus etype now).specializations
      = 0 := rfl
  have hreg : ∀ p ∈ skillRegistry,
      p.2.examples_collected = p.2.quality_scores.length := by decide
  have hentries : ∀ p ∈ (EternalEgg.new name focus etype now).specializations,
      p.2.examples_collected = p.2.quality_scores.length :=
    fun p hp => hreg p hp
  refine ⟨?_, ?_, h.2.2.2 hentries⟩
  · have h1 := h.2.1
    have h2 : (EternalEgg.new name focus etype now).total_examples = 0 := rfl
    have h3 : (EternalEgg.new name focus etype now).training_examples.length
        = 0 := rfl
    omega
  · have h1 := h.2.2.1
    omega

lemma olderSlice_ne_nil (h : List ℚ) (hl : 10 ≤ h.length) :
    olderSlice h ≠ [] := by
  unfold olderSlice
  split_ifs with h15
  · intro hc
    have := congrArg List.length hc
    simp only [List.length_take, List.length_drop, List.length_nil] at this
    omega
  · intro hc
    have := congrArg List.length hc
    simp only [List.length_take, List.length_nil] at this
    omega

lemma checkQualityTrend_fst (history : List ℚ) (window : Nat) (d q : ℚ) :
    (checkQualityTrend history window d q).1 = pushWindow history window q := by
  simp only [checkQualityTrend]
  split_ifs <;> rfl

lemma trend_reject_iff (history : List ℚ) (window : Nat) (d q : ℚ) :
    ((checkQualityTrend history window d q).2.quality_ok = false) ↔
      (10 ≤ (pushWindow history window q).length ∧
       d < listAvg (olderSlice (pushWindow history window q)) -
         listAvg (recentSlice (pushWindow history window q))) := by
  simp only [checkQualityTrend]
  split_ifs with hlen hempty hdeg himp
  · refine iff_of_false (by simp) ?_
    rintro ⟨h, _⟩
    omega
  · exact absurd (List.isEmpty_iff.mp hempty)
      (olderSlice_ne_nil _ (by omega))
  · exact iff_of_true rfl ⟨by omega, hdeg⟩
  · refine iff_of_false (by simp) ?_
    rintro ⟨_, hc⟩
    exact hdeg hc
  · refine iff_of_false (by simp) ?_
    rintro ⟨_, hc⟩
    exact hdeg hc

lemma blocked_ne_pass (s : String) : ("blocked: " ++ s) ≠ "pass" := by
  intro h
  have hl := congrArg String.length h
  rw [String.length_append] at hl
  have h1 : ("blocked: ").length = 9 := by decide
  have h2 : ("pass").length = 4 := by decide
  omega

lemma feedCompatible_quality_history :
    ∀ (names : List String) (af : AutoFeeder) (skills : List String)
      (i o : String) (q : ℚ) (fb : Option String) (now : String),
      ((af.feedCompatible names skills i o q fb now).1).quality_history =
        af.quality_history := by
  intro names
  induction names with
  | nil =>
    intro af _ _ _ _ _ _
    rfl
  | cons n rest ih =>
    intro af skills i o q fb now
    unfold AutoFeeder.feedCompatible
    by_cases hsf : af.shouldFeedEgg n skills = true
    · rw [if_pos hsf]
      cases hfe : (af.farm.feedEgg n i o skills q fb now).2 with
      | failure r =>
        simp only [hfe]
        exact ih _ _ _ _ _ _ _
      | success en r =>
        simp only [hfe]
        exact ih _ _ _ _ _ _ _
    · rw [if_neg hsf]
      exact ih _ _ _ _ _ _ _

/-- C5 counterexample.  Left: with only 10 samples in the window
(`[5,5,5,5,5,1,1,1,1]` plus a pushed `1`) the code rejects as a
quality-trend violation although fewer than the claim's "at least 15
samples" exist.  Right: with exactly 15 samples and the recent-5 mean
exactly 0.3 below the preceding-10 mean (older samples `[4,1,...,1]`
averaging 1.3, recent samples all `1`), the claim ("0.3 or more lower")
demands rejection but the code (strict `>`) passes. -/
theorem c5_counterexample :
    ((checkQualityTrend [5, 5, 5, 5, 5, 1, 1, 1, 1] 20 (3/10) 1).2.quality_ok
        = false ∧
     ¬ 15 ≤ (checkQualityTrend [5, 5, 5, 5, 5, 1, 1, 1, 1] 20
        (3/10) 1).1.length) ∧
    ((checkQualityTrend [4, 1, 1, 1, 1, 1, 1, 1, 1, 1, 1, 1, 1, 1] 20
        (3/10) 1).2.quality_ok = true ∧
     15 ≤ (checkQualityTrend [4, 1, 1, 1, 1, 1, 1, 1, 1, 1, 1, 1, 1, 1] 20
        (3/10) 1).1.length ∧
     3/10 ≤
       listAvg (olderSlice (checkQualityTrend [4, 1, 1, 1, 1, 1, 1, 1, 1, 1,
         1, 1, 1, 1] 20 (3/10) 1).1) -
       listAvg (recentSlice (checkQualityTrend [4, 1, 1, 1, 1, 1, 1, 1, 1, 1,
         1, 1, 1, 1] 20 (3/10) 1).1)) := by
  have hp1 : pushWindow [5, 5, 5, 5, 5, 1, 1, 1, 1] 20 1 =
      [5, 5, 5, 5, 5, 1, 1, 1, 1, 1] := by decide
  have hp2 : pushWindow [4, 1, 1, 1, 1, 1, 1, 1, 1, 1, 1, 1, 1, 1] 20 1 =
      [4, 1, 1, 1, 1, 1, 1, 1, 1, 1, 1, 1, 1, 1, 1] := by decide
  have ho1 : olderSlice [5, 5, 5, 5, 5, 1, 1, 1, 1, 1] =
      [(5 : ℚ), 5, 5, 5, 5] := by decide
  have hr1 : recentSlice [5, 5, 5, 5, 5, 1, 1, 1, 1, 1] =
      [(1 : ℚ), 1, 1, 1, 1] := by decide
  have ho2 : olderSlice [4, 1, 1, 1, 1, 1, 1, 1, 1, 1, 1, 1, 1, 1, 1] =
      [(4 : ℚ), 1, 1, 1, 1, 1, 1, 1, 1, 1] := by decide
  have hr2 : recentSlice [4, 1, 1, 1, 1, 1, 1, 1, 1, 1, 1, 1, 1, 1, 1] =
      [(1 : ℚ), 1, 1, 1, 1] := by decide
  have ha1 : listAvg [(5 : ℚ), 5, 5, 5, 5] = 5 := by norm_num [listAvg]
  have ha2 : listAvg [(1 : ℚ), 1, 1, 1, 1] = 1 := by norm_num [listAvg]
  have ha3 : listAvg [(4 : ℚ), 1, 1, 1, 1, 1, 1, 1, 1, 1] = 13/10 := by
    norm_num [listAvg]
  refine ⟨⟨?_, ?_⟩, ?_, ?_, ?_⟩
  · rw [trend_reject_iff, hp1, ho1, hr1, ha1, ha2]
    refine ⟨by norm_num, by norm_num⟩
  · rw [checkQualityTrend_fst, hp1]
    norm_num
  · rw [← Bool.not_eq_false, trend_reject_iff, hp2, ho2, hr2, ha3, ha2]
    intro hc
    have := hc.2
    norm_num at this
  · rw [checkQualityTrend_fst, hp2]
    norm_num
  · rw [checkQualityTrend_fst, hp2, ho2, hr2, ha3, ha2]
    norm_num

/-- C5 (amended): in `auto_feed_compatible_eggs` — once the enabled,
freshness and skill gates have passed — the computed quality score is
pushed into the FIFO trend window, and the call is rejected as a
quality-trend violation if and only if the updated window holds at least
10 samples (not 15) and the mean of the most-recent 5 samples is *strictly*
more than the degradation threshold (default 0.3) below the mean of the
preceding samples (the preceding 10 when at least 15 samples exist,
otherwise all preceding samples). -/
theorem c5_quality_trend_gate :
    (∀ (history : List ℚ) (window : Nat) (d q : ℚ),
      ((checkQualityTrend history window d q).2.quality_ok = false) ↔
        (10 ≤ (pushWindow history window q).length ∧
         d < listAvg (olderSlice (pushWindow history window q)) -
           listAvg (recentSlice (pushWindow history window q)))) ∧
    (∀ (af : AutoFeeder) (i o c : String) (fb : Option String)
       (now : String),
      af.feeding_enabled = true →
      (af.checkContentFreshness i o).is_fresh = true →
      detectSkills (i ++ " " ++ o) ≠ [] →
      ((af.autoFeedCompatibleEggs i o c fb now).1.quality_history =
        pushWindow af.quality_history af.quality_window
          (calculateQualityScore i o c)) ∧
      ((af.autoFeedCompatibleEggs i o c fb now).2.qualityTrendBlocked = true ↔
        (checkQualityTrend af.quality_history af.quality_window
          af.quality_degradation_threshold
          (calculateQualityScore i o c)).2.quality_ok = false)) := by
  constructor
  · exact fun history window d q => trend_reject_iff history window d q
  · intro af i o c fb now hen hfresh hskills
    simp only [AutoFeeder.autoFeedCompatibleEggs]
    split_ifs with h1 h2 h3 h4 h5 h6
    · rw [hen] at h1
      exact absurd h1 (by simp)
    · rw [hfresh] at h2
      exact absurd h2 (by simp)
    · simp [rateLimitCheck] at h3
    · exact absurd (List.isEmpty_iff.mp h4) hskills
    · refine ⟨checkQualityTrend_fst _ _ _ _, ?_⟩
      simp only [AutoFeedResult.qualityTrendBlocked]
      rw [h5]
      simp [blocked_ne_pass]
    · refine ⟨checkQualityTrend_fst _ _ _ _, ?_⟩
      simp only [AutoFeedResult.qualityTrendBlocked]
      simp only [Bool.not_eq_false] at h5
      rw [h5]
      simp
    · refine ⟨?_, ?_⟩
      · show ((AutoFeeder.feedCompatible _ _ _ _ _ _ _ _).1.updateContentCache
          i o).quality_history = _
        rw [show ∀ x : AutoFeeder, (x.updateContentCache i o).quality_history
            = x.quality_history from fun x => rfl]
        rw [feedCompatible_quality_history]
        exact checkQualityTrend_fst _ _ _ _
      · simp only [AutoFeedResult.qualityTrendBlocked]
        simp only [Bool.not_eq_false] at h5
        rw [h5]
        simp
    · refine ⟨?_, ?_⟩
      · show (AutoFeeder.feedCompatible _ _ _ _ _ _ _ _).1.quality_history = _
        rw [feedCompatible_quality_history]
        exact checkQualityTrend_fst _ _ _ _
      · simp only [AutoFeedResult.qualityTrendBlocked]
        simp only [Bool.not_eq_false] at h5
        rw [h5]
        simp

lemma newFeeder_fresh (i o : String) :
    ((AutoFeeder.new ⟨"output/egg-farm", []⟩).checkContentFreshness i
      o).is_fresh = true := by
  unfold AutoFeeder.checkContentFreshness
  simp only [AutoFeeder.new, List.foldl_nil]
  norm_num

lemma witness_skills_nonempty :
    detectSkills ("academic formal professional research methodology" ++ " "
      ++ "implementation results analysis conclusion bibliography") ≠ [] := by
  intro hc
  have hmem : "academic_writing" ∈
      detectSkills ("academic formal professional research methodology" ++ " "
        ++ "implementation results analysis conclusion bibliography") := by
    unfold detectSkills
    refine List.mem_map.mpr ⟨("academic_writing",
      ["academic", "formal", "professional", "research", "methodology",
       "implementation", "results", "analysis", "conclusion",
       "bibliography"]), ?_, rfl⟩
    refine List.mem_filter.mpr ⟨by decide, ?_⟩
    simp only [decide_eq_true_eq]
    rw [show List.filter
        (fun p => strIn p (pyLower ("academic formal professional research methodology"
          ++ " " ++ "implementation results analysis conclusion bibliography")))
        ["academic", "formal", "professional", "research", "methodology",
         "implementation", "results", "analysis", "conclusion",
         "bibliography"] =
      ["academic", "formal", "professional", "research", "methodology",
       "implementation", "results", "analysis", "conclusion",
       "bibliography"] from by decide]
    norm_num
  rw [hc] at hmem
  exact (List.not_mem_nil _) hmem

/-- C5 witness: the call-site statement instantiated at the default
Auto-Feeder over an empty farm with a skill-bearing interaction. -/
theorem c5_witness :
    (AutoFeeder.new ⟨"output/egg-farm", []⟩).feeding_enabled = true ∧
    ((AutoFeeder.new ⟨"output/egg-farm", []⟩).checkContentFreshness
      "academic formal professional research methodology"
      "implementation results analysis conclusion bibliography").is_fresh
      = true ∧
    detectSkills ("academic formal professional research methodology" ++ " "
      ++ "implementation results analysis conclusion bibliography") ≠ [] ∧
    (((AutoFeeder.new ⟨"output/egg-farm", []⟩).autoFeedCompatibleEggs
        "academic formal professional research methodology"
        "implementation results analysis conclusion bibliography" "" none
        "t").1.quality_history =
      pushWindow (AutoFeeder.new ⟨"output/egg-farm", []⟩).quality_history
        (AutoFeeder.new ⟨"output/egg-farm", []⟩).quality_window
        (calculateQualityScore
          "academic formal professional research methodology"
          "implementation results analysis conclusion bibliography" "")) :=
  ⟨rfl, newFeeder_fresh _ _, witness_skills_nonempty,
   (c5_quality_trend_gate.2 (AutoFeeder.new ⟨"output/egg-farm", []⟩)
     "academic formal professional research methodology"
     "implementation results analysis conclusion bibliography" "" none "t"
     rfl (newFeeder_fresh _ _) witness_skills_nonempty).1⟩

lemma freshnessStep_eq (combined : String) (r : FreshnessReport)
    (c : String) :
    freshnessStep combined r c =
      { r with
        max_similarity := max r.max_similarity (contentSimilarity combined c),
        similar_count := r.similar_count +
          (if 7/10 < contentSimilarity combined c then 1 else 0) } := by
  unfold freshnessStep
  dsimp only
  rcases lt_or_ge r.max_similarity (contentSimilarity combined c) with
    hlt | hge
  · rw [if_pos hlt, max_eq_right (le_of_lt hlt)]
    split_ifs <;> simp
  · rw [if_neg (not_lt.mpr hge), max_eq_left hge]
    split_ifs <;> simp

lemma freshness_fold_char (combined : String) :
    ∀ (cache : List String) (r : FreshnessReport),
      ((cache.foldl (freshnessStep combined) r).is_fresh = r.is_fresh) ∧
      ((cache.foldl (freshnessStep combined) r).max_similarity =
        cache.foldl (fun m c => max m (contentSimilarity combined c))
          r.max_similarity) ∧
      ((cache.foldl (freshnessStep combined) r).similar_count =
        r.similar_count +
          (cache.filter (fun c => 7/10 < contentSimilarity combined c)).length)
    := by
  intro cache
  induction cache with
  | nil =>
    intro r
    exact ⟨rfl, rfl, by simp⟩
  | cons c rest ih =>
    intro r
    simp only [List.foldl_cons]
    rw [freshnessStep_eq]
    have hih := ih { r with
      max_similarity := max r.max_similarity (contentSimilarity combined c),
      similar_count := r.similar_count +
        (if 7/10 < contentSimilarity combined c then 1 else 0) }
    refine ⟨hih.1, hih.2.1, ?_⟩
    · rw [hih.2.2, List.filter_cons]
      dsimp only
      by_cases hc : 7/10 < contentSimilarity combined c
      · rw [if_pos hc, if_pos (decide_eq_true hc)]
        simp only [List.length_cons]
        omega
      · rw [if_neg hc, if_neg (by simpa using hc)]
        omega

lemma checkContentFreshness_reject_iff (af : AutoFeeder) (i o : String) :
    ((af.checkContentFreshness i o).is_fresh = false) ↔
      (3 < simCount af.recent_content_cache (i ++ " " ++ o) ∨
       8/10 < maxSim af.recent_content_cache (i ++ " " ++ o)) := by
  simp only [AutoFeeder.checkContentFreshness]
  have h := freshness_fold_char (i ++ " " ++ o) af.recent_content_cache
    { is_fresh := true, max_similarity := 0, similar_count := 0, reason := "" }
  obtain ⟨hf, hm, hc⟩ := h
  split_ifs with h1 h2
  · refine iff_of_true rfl (Or.inl ?_)
    rw [hc] at h1
    simpa [simCount] using h1
  · refine iff_of_true rfl (Or.inr ?_)
    rw [hm] at h2
    exact h2
  · rw [hf]
    refine iff_of_false (by simp) ?_
    rintro (hcase | hcase)
    · rw [hc] at h1
      exact h1 (by simpa [simCount] using hcase)
    · rw [hm] at h2
      exact h2 hcase

/-- C7: `auto_feed_compatible_eggs` (with feeding enabled) rejects at the
freshness gate if and only if more than 3 cached content strings have
Jaccard word-overlap similarity above 0.7 with the new combined content, or
the maximum such similarity exceeds 0.8; and on such a rejection the whole
Auto-Feeder state — content cache, quality-trend window, and farm — is left
unchanged. -/
theorem c7_freshness_gate :
    ∀ (af : AutoFeeder) (i o c : String) (fb : Option String)
      (now : String),
      af.feeding_enabled = true →
      (((af.autoFeedCompatibleEggs i o c fb now).2.freshnessBlocked = true) ↔
        (3 < simCount af.recent_content_cache (i ++ " " ++ o) ∨
         8/10 < maxSim af.recent_content_cache (i ++ " " ++ o))) ∧
      ((3 < simCount af.recent_content_cache (i ++ " " ++ o) ∨
        8/10 < maxSim af.recent_content_cache (i ++ " " ++ o)) →
        (af.autoFeedCompatibleEggs i o c fb now).1 = af) := by
  intro af i o c fb now hen
  simp only [AutoFeeder.autoFeedCompatibleEggs]
  split_ifs with h1 h2 h3 h4 h5 h6 h7
  · rw [hen] at h1
    exact absurd h1 (by simp)
  · refine ⟨iff_of_true ?_ ((checkContentFreshness_reject_iff af i o).mp h2),
      fun _ => rfl⟩
    simp [AutoFeedResult.freshnessBlocked, blocked_ne_pass]
  all_goals
    have hnc : ¬ (3 < simCount af.recent_content_cache (i ++ " " ++ o) ∨
        8/10 < maxSim af.recent_content_cache (i ++ " " ++ o)) :=
      fun hcond => h2 ((checkContentFreshness_reject_iff af i o).mpr hcond)
  · exact ⟨iff_of_false (by simp [AutoFeedResult.freshnessBlocked]) hnc,
      fun hcond => absurd hcond hnc⟩
  · exact ⟨iff_of_false (by simp [AutoFeedResult.freshnessBlocked]) hnc,
      fun hcond => absurd hcond hnc⟩
  · exact ⟨iff_of_false (by simp [AutoFeedResult.freshnessBlocked]) hnc,
      fun hcond => absurd hcond hnc⟩
  · exact ⟨iff_of_false (by simp [AutoFeedResult.freshnessBlocked]) hnc,
      fun hcond => absurd hcond hnc⟩
  · exact ⟨iff_of_false (by simp [AutoFeedResult.freshnessBlocked]) hnc,
      fun hcond => absurd hcond hnc⟩
  · exact ⟨iff_of_false (by simp [AutoFeedResult.freshnessBlocked]) hnc,
      fun hcond => absurd hcond hnc⟩

/-- C7 witness: the freshness-gate statement instantiated at the default
Auto-Feeder over an empty farm. -/
theorem c7_witness :
    (AutoFeeder.new ⟨"output/egg-farm", []⟩).feeding_enabled = true ∧
    ((((AutoFeeder.new ⟨"output/egg-farm", []⟩).autoFeedCompatibleEggs
        "a" "b" "" none "t").2.freshnessBlocked = true) ↔
      (3 < simCount
          (AutoFeeder.new ⟨"output/egg-farm", []⟩).recent_content_cache
          ("a" ++ " " ++ "b") ∨
       8/10 < maxSim
          (AutoFeeder.new ⟨"output/egg-farm", []⟩).recent_content_cache
          ("a" ++ " " ++ "b"))) ∧
    ((3 < simCount
          (AutoFeeder.new ⟨"output/egg-farm", []⟩).recent_content_cache
          ("a" ++ " " ++ "b") ∨
      8/10 < maxSim
          (AutoFeeder.new ⟨"output/egg-farm", []⟩).recent_content_cache
          ("a" ++ " " ++ "b")) →
      ((AutoFeeder.new ⟨"output/egg-farm", []⟩).autoFeedCompatibleEggs
        "a" "b" "" none "t").1 = AutoFeeder.new ⟨"output/egg-farm", []⟩) :=
  ⟨rfl,
   (c7_freshness_gate (AutoFeeder.new ⟨"output/egg-farm", []⟩) "a" "b" ""
     none "t" rfl).1,
   (c7_freshness_gate (AutoFeeder.new ⟨"output/egg-farm", []⟩) "a" "b" ""
     none "t" rfl).2⟩

lemma sigWordsOf_nodup (ex : TrainingExample) : (sigWordsOf ex).Nodup :=
  (List.nodup_dedup _).filter _

lemma mem_sigWordsOf (w : String) (ex : TrainingExample) :
    w ∈ sigWordsOf ex ↔ (4 < w.length ∧ w ∈ pySplit (pyLower ex.input)) := by
  simp [sigWordsOf, List.mem_filter, List.mem_dedup, and_comm]

lemma count_flatMap_sig (w : String) :
    ∀ l : List TrainingExample,
      (l.flatMap sigWordsOf).count w =
        (l.filter (fun ex => w ∈ sigWordsOf ex)).length := by
  intro l
  induction l with
  | nil => rfl
  | cons x t ih =>
    rw [List.flatMap_cons, List.count_append, List.filter_cons, ih]
    by_cases hx : w ∈ sigWordsOf x
    · rw [List.count_eq_one_of_mem (sigWordsOf_nodup x) hx,
        if_pos (decide_eq_true hx)]
      simp only [List.length_cons]
      omega
    · rw [List.count_eq_zero_of_not_mem hx, if_neg (by simpa using hx)]
      omega

lemma foldr_max_lt (t : ℚ) (ht : 0 ≤ t) :
    ∀ l : List Nat,
      (t < ((l.foldr max 0 : Nat) : ℚ)) ↔ ∃ x ∈ l, t < (x : ℚ) := by
  intro l
  induction l with
  | nil =>
    refine iff_of_false ?_ (by simp)
    simpa using not_lt.mpr ht
  | cons a rest ih =>
    rw [List.foldr_cons, Nat.cast_max _ _, lt_max_iff, ih,
      List.exists_mem_cons_iff]

lemma maxWordFreq_iff (e : EternalEgg) :
    ((e.training_examples.length : ℚ) * (2/10) < (maxWordFreq e : ℚ)) ↔
      ∃ w, 4 < w.length ∧
        (e.training_examples.length : ℚ) * (2/10) <
          (recentWordCount e w : ℚ) := by
  have ht : (0 : ℚ) ≤ (e.training_examples.length : ℚ) * (2/10) := by
    positivity
  simp only [maxWordFreq]
  rw [foldr_max_lt _ ht]
  constructor
  · rintro ⟨x, hx, hlt⟩
    rw [List.mem_map] at hx
    obtain ⟨w, hwmem, rfl⟩ := hx
    rw [List.mem_dedup] at hwmem
    obtain ⟨ex, hexmem, hwex⟩ := List.mem_flatMap.mp hwmem
    have hwlen : 4 < w.length := ((mem_sigWordsOf w ex).mp hwex).1
    refine ⟨w, hwlen, ?_⟩
    rw [count_flatMap_sig] at hlt
    have hfe : (recent100 e).filter (fun ex => w ∈ sigWordsOf ex) =
        (recent100 e).filter (fun ex => w ∈ pySplit (pyLower ex.input)) := by
      refine List.filter_congr ?_
      intro a _
      simp [mem_sigWordsOf, hwlen]
    rw [hfe] at hlt
    exact hlt
  · rintro ⟨w, hwlen, hlt⟩
    have hpos : 0 < recentWordCount e w := by
      rcases Nat.eq_zero_or_pos (recentWordCount e w) with h0 | h0
      · rw [h0] at hlt
        simp only [Nat.cast_zero] at hlt
        exact absurd hlt (not_lt.mpr ht)
      · exact h0
    have hex2 : ∃ ex ∈ recent100 e, w ∈ pySplit (pyLower ex.input) := by
      simp only [recentWordCount] at hpos
      obtain ⟨ex, hex⟩ := List.exists_mem_of_ne_nil _
        (List.length_pos.mp hpos)
      have hmem := List.mem_filter.mp hex
      exact ⟨ex, hmem.1, of_decide_eq_true hmem.2⟩
    obtain ⟨ex, hexmem, hwex⟩ := hex2
    have hwsig : w ∈ sigWordsOf ex := (mem_sigWordsOf w ex).mpr ⟨hwlen, hwex⟩
    refine ⟨((recent100 e).flatMap sigWordsOf).count w, ?_, ?_⟩
    · rw [List.mem_map]
      refine ⟨w, ?_, rfl⟩
      rw [List.mem_dedup]
      exact List.mem_flatMap.mpr ⟨ex, hexmem, hwsig⟩
    · rw [count_flatMap_sig]
      have hfe : (recent100 e).filter (fun ex => w ∈ sigWordsOf ex) =
          (recent100 e).filter (fun ex => w ∈ pySplit (pyLower ex.input)) := by
        refine List.filter_congr ?_
        intro a _
        simp [mem_sigWordsOf, hwlen]
      rw [hfe]
      exact hlt

lemma preFreshness_no_overW (e : EternalEgg) :
    overingestionWarning ∉ (preFreshnessReport e).warnings ∧
    (preFreshnessReport e).freshness_score = 1 := by
  simp only [preFreshnessReport]
  split_ifs <;> simp [overingestionWarning]

lemma freshness_char (e : EternalEgg) :
    (overingestionWarning ∈ (e.checkDataHealth).warnings ↔
      (e.training_examples.length : ℚ) * (2/10) < (maxWordFreq e : ℚ)) ∧
    ((e.checkDataHealth).freshness_score =
      if (e.training_examples.length : ℚ) * (2/10) < (maxWordFreq e : ℚ)
      then 1/2 else 1) := by
  by_cases hemp : e.training_examples = []
  · have hmf : maxWordFreq e = 0 := by
      simp [maxWordFreq, recent100, hemp]
    have hch : e.checkDataHealth =
        { status := "healthy", warnings := [], quality_trend := "stable",
          diversity_score := 0, freshness_score := 1 } := by
      simp only [EternalEgg.checkDataHealth]
      rw [if_pos hemp]
    rw [hch, hmf, hemp]
    constructor
    · simp
    · rw [if_neg (by norm_num)]
  · obtain ⟨hno, hfs⟩ := preFreshness_no_overW e
    simp only [EternalEgg.checkDataHealth]
    rw [if_neg hemp]
    split_ifs <;> simp_all [overingestionWarning, not_lt]

/-- C6 counterexample: an egg with 105 examples whose most recent 100
contain the significant word "database" in 21 of them.  Per the claim
(threshold: 20% of the at-most-100 recent examples, i.e. 20) the
overingestion warning should fire with `freshness_score = 0.5`, but the
code compares against 20% of *all* 105 examples (21), so `21 > 21` fails
and the egg is reported fresh (`freshness_score = 1`, no warning). -/
theorem c6_counterexample :
    (4 < ("database").length ∧
     ((min 100 egg105.training_examples.length : Nat) : ℚ) * (2/10) <
       (recentWordCount egg105 "database" : ℚ)) ∧
    (egg105.checkDataHealth).freshness_score = 1 ∧
    overingestionWarning ∉ (egg105.checkDataHealth).warnings := by
  have hcnt : recentWordCount egg105 "database" = 21 := by decide
  have hlen : egg105.training_examples.length = 105 := by decide
  have hmax : maxWordFreq egg105 = 21 := by decide
  obtain ⟨hmem, hfs⟩ := freshness_char egg105
  have hncond : ¬ ((egg105.training_examples.length : ℚ) * (2/10) <
      (maxWordFreq egg105 : ℚ)) := by
    rw [hlen, hmax]
    norm_num
  refine ⟨⟨by decide, ?_⟩, ?_, ?_⟩
  · rw [hcnt, hlen]
    norm_num
  · rw [hfs, if_neg hncond]
  · intro hmem'
    exact hncond (hmem.mp hmem')

/-- C6 (amended): for every egg with a non-empty example list,
`check_data_health()` flags the overingestion warning and sets
`freshness_score = 0.5` if and only if some input word of length greater
than 4 occurs, among the most recent 100 examples, in more than 20% of
*all* training examples (the code divides by the total example count, not
by the size of the at-most-100 recent window); otherwise
`freshness_score = 1.0`. -/
theorem c6_overingestion_freshness :
    ∀ e : EternalEgg, e.training_examples ≠ [] →
      ((overingestionWarning ∈ (e.checkDataHealth).warnings ∧
        (e.checkDataHealth).freshness_score = 1/2) ↔
        ∃ w, 4 < w.length ∧
          (e.training_examples.length : ℚ) * (2/10) <
            (recentWordCount e w : ℚ)) ∧
      ((¬ ∃ w, 4 < w.length ∧
          (e.training_examples.length : ℚ) * (2/10) <
            (recentWordCount e w : ℚ)) →
        (e.checkDataHealth).freshness_score = 1) := by
  intro e _
  obtain ⟨hmem, hfs⟩ := freshness_char e
  rw [← maxWordFreq_iff e]
  constructor
  · constructor
    · rintro ⟨hw, _⟩
      exact hmem.mp hw
    · intro hcond
      exact ⟨hmem.mpr hcond, by rw [hfs, if_pos hcond]⟩
  · intro hncond
    rw [hfs, if_neg hncond]

/-- C6 witness: the amended statement instantiated at the concrete
105-example egg. -/
theorem c6_witness :
    egg105.training_examples ≠ [] ∧
    ((¬ ∃ w, 4 < w.length ∧
        (egg105.training_examples.length : ℚ) * (2/10) <
          (recentWordCount egg105 w : ℚ)) →
      (egg105.checkDataHealth).freshness_score = 1) :=
  ⟨by decide, (c6_overingestion_freshness egg105 (by decide)).2⟩

lemma docEquiv_of_eq (a b : EggDoc) (h : a = b) : docEquiv a b := by
  subst h
  exact ⟨rfl, rfl, rfl, rfl, rfl, rfl, rfl, fun k _ => rfl, rfl, rfl⟩

/-- C4 counterexample: `docBad` is a well-formed per-egg document (it
parses and loads without error), yet save-after-load does not reproduce
it — the loader discards the persisted per-specialization
`target_examples` (600), and save writes the constructor default 500
back. -/
theorem c4_counterexample :
    ¬ docEquiv (saveEgg (loadEgg docBad)) docBad ∧
    lookupA (saveEgg (loadEgg docBad)).specializations "academic_writing" =
      some ⟨0, [], 500⟩ ∧
    lookupA docBad.specializations "academic_writing" = some ⟨0, [], 600⟩ :=
  by decide

/-- C4 (amended): save-after-load is the identity (same keys and values,
ignoring JSON key order) exactly on the persisted egg documents whose
`specializations` object holds the 7 registry skills in registry order,
each with `target_examples = 500` — in particular on every file written by
`save_egg`.  For other well-formed files (a non-default per-block
`target_examples`, or extra/missing specialization keys) the loader drops
the deviating data and the round-trip is not the identity. -/
theorem c4_save_load_roundtrip :
    ∀ d : EggDoc,
      d.specializations.map Prod.fst = skillNames →
      (∀ p ∈ d.specializations, p.2.target_examples = 500) →
      docEquiv (saveEgg (loadEgg d)) d := by
  intro d hkeys htgt
  refine docEquiv_of_eq _ _ ?_
  obtain ⟨n, et, cd, fa, te, qt, tg, specs, tr, md⟩ := d
  simp only at hkeys htgt ⊢
  rcases specs with _ | ⟨⟨k1, s1⟩, specs⟩
  · simp [skillNames, skillRegistry] at hkeys
  rcases specs with _ | ⟨⟨k2, s2⟩, specs⟩
  · simp [skillNames, skillRegistry] at hkeys
  rcases specs with _ | ⟨⟨k3, s3⟩, specs⟩
  · simp [skillNames, skillRegistry] at hkeys
  rcases specs with _ | ⟨⟨k4, s4⟩, specs⟩
  · simp [skillNames, skillRegistry] at hkeys
  rcases specs with _ | ⟨⟨k5, s5⟩, specs⟩
  · simp [skillNames, skillRegistry] at hkeys
  rcases specs with _ | ⟨⟨k6, s6⟩, specs⟩
  · simp [skillNames, skillRegistry] at hkeys
  rcases specs with _ | ⟨⟨k7, s7⟩, specs⟩
  · simp [skillNames, skillRegistry] at hkeys
  rcases specs with _ | ⟨⟨k8, s8⟩, specs⟩
  swap
  · exact absurd (congrArg List.length hkeys)
      (by simp [skillNames, skillRegistry])
  simp only [skillNames, skillRegistry, List.map_cons, List.map_nil,
    List.cons.injEq, and_true] at hkeys
  obtain ⟨hk1, hk2, hk3, hk4, hk5, hk6, hk7⟩ := hkeys
  subst hk1 hk2 hk3 hk4 hk5 hk6 hk7
  simp only [List.mem_cons, List.not_mem_nil, or_false, forall_eq_or_imp,
    forall_eq] at htgt
  obtain ⟨ht1, ht2, ht3, ht4, ht5, ht6, ht7⟩ := htgt
  have e1 : (⟨s1.examples_collected, s1.quality_scores, 500⟩ : SpecDoc) = s1
    := by rw [← ht1]
  have e2 : (⟨s2.examples_collected, s2.quality_scores, 500⟩ : SpecDoc) = s2
    := by rw [← ht2]
  have e3 : (⟨s3.examples_collected, s3.quality_scores, 500⟩ : SpecDoc) = s3
    := by rw [← ht3]
  have e4 : (⟨s4.examples_collected, s4.quality_scores, 500⟩ : SpecDoc) = s4
    := by rw [← ht4]
  have e5 : (⟨s5.examples_collected, s5.quality_scores, 500⟩ : SpecDoc) = s5
    := by rw [← ht5]
  have e6 : (⟨s6.examples_collected, s6.quality_scores, 500⟩ : SpecDoc) = s6
    := by rw [← ht6]
  have e7 : (⟨s7.examples_collected, s7.quality_scores, 500⟩ : SpecDoc) = s7
    := by rw [← ht7]
  simp only [saveEgg, loadEgg, EternalEgg.new, skillRegistry, applySpecDoc,
    List.foldl_cons, List.foldl_nil, List.map_cons, List.map_nil]
  simp [e1, e2, e3, e4, e5, e6, e7]

/-- C4 witness: the round-trip statement instantiated at the document
written by `save_egg` for a freshly spawned egg. -/
theorem c4_witness :
    ((saveEgg (EternalEgg.new "e" [] "general"
        "2024-01-01T00:00:00")).specializations.map Prod.fst = skillNames) ∧
    (∀ p ∈ (saveEgg (EternalEgg.new "e" [] "general"
        "2024-01-01T00:00:00")).specializations,
      p.2.target_examples = 500) ∧
    docEquiv
      (saveEgg (loadEgg (saveEgg (EternalEgg.new "e" [] "general"
        "2024-01-01T00:00:00"))))
      (saveEgg (EternalEgg.new "e" [] "general" "2024-01-01T00:00:00")) :=
  ⟨by decide, by decide,
   c4_save_load_roundtrip
     (saveEgg (EternalEgg.new "e" [] "general" "2024-01-01T00:00:00"))
     (by decide) (by decide)⟩

end EggSys
